import Mathlib

set_option maxRecDepth 10000

/-!
Verification of the mmhuman3d repository snapshot: a shallow embedding of
the keypoint-convention tables (`openpose.py`), the SMPLX body-model
estimator loss computations (`expressive_mesh_estimator.py`), the
`train_step` control flow, and the SPIN SMPLify registrant configuration
(`resnet50_spin_pw3d.py`), together with theorems about them.

Tensors are embedded as (nested) lists of rationals; batched torch
operations become the corresponding list operations.  The loss modules
built by `build_loss`, `batch_rodrigues` and
`weak_perspective_projection` live outside this snapshot, so they are
kept abstract (universally quantified) in the statements; boolean mask
indexing `x[flags == 1]` becomes `maskSelect`.
-/

namespace MMHuman3D

def OPENPOSE_135_KEYPOINTS : List String := [
  "nose", "left_eye", "right_eye", "left_ear", "right_ear",
  "left_shoulder", "right_shoulder", "left_elbow", "right_elbow", "left_wrist",
  "right_wrist", "left_hip", "right_hip", "left_knee", "right_knee",
  "left_ankle", "right_ankle", "neck", "head", "left_bigtoe",
  "left_smalltoe", "left_heel", "right_bigtoe", "right_smalltoe", "right_heel",
  "left_thumb_1", "left_thumb_2", "left_thumb_3", "left_thumb", "left_index_1",
  "left_index_2", "left_index_3", "left_index", "left_middle_1", "left_middle_2",
  "left_middle_3", "left_middle", "left_ring_1", "left_ring_2", "left_ring_3",
  "left_ring", "left_pinky_1", "left_pinky_2", "left_pinky_3", "left_pinky",
  "right_thumb_1", "right_thumb_2", "right_thumb_3", "right_thumb", "right_index_1",
  "right_index_2", "right_index_3", "right_index", "right_middle_1", "right_middle_2",
  "right_middle_3", "right_middle", "right_ring_1", "right_ring_2", "right_ring_3",
  "right_ring", "right_pinky_1", "right_pinky_2", "right_pinky_3", "right_pinky",
  "right_contour_1", "right_contour_2", "right_contour_3", "right_contour_4", "right_contour_5",
  "right_contour_6", "right_contour_7", "right_contour_8", "contour_middle", "left_contour_8",
  "left_contour_7", "left_contour_6", "left_contour_5", "left_contour_4", "left_contour_3",
  "left_contour_2", "left_contour_1", "right_eyebrow_1", "right_eyebrow_2", "right_eyebrow_3",
  "right_eyebrow_4", "right_eyebrow_5", "left_eyebrow_5", "left_eyebrow_4", "left_eyebrow_3",
  "left_eyebrow_2", "left_eyebrow_1", "nosebridge_1", "nosebridge_2", "nosebridge_3",
  "nosebridge_4", "right_nose_2", "right_nose_1", "nose_middle", "left_nose_1",
  "left_nose_2", "right_eye_1", "right_eye_2", "right_eye_3", "right_eye_4",
  "right_eye_5", "right_eye_6", "left_eye_4", "left_eye_3", "left_eye_2",
  "left_eye_1", "left_eye_6", "left_eye_5", "right_mouth_1", "right_mouth_2",
  "right_mouth_3", "mouth_top", "left_mouth_3", "left_mouth_2", "left_mouth_1",
  "left_mouth_5", "left_mouth_4", "mouth_bottom", "right_mouth_4", "right_mouth_5",
  "right_lip_1", "right_lip_2", "lip_top", "left_lip_2", "left_lip_1",
  "left_lip_3", "lip_bottom", "right_lip_3", "right_eyeball", "left_eyeball"
]

def OPENPOSE_25_KEYPOINTS : List String := [
  "nose_openpose", "neck_openpose", "right_shoulder_openpose", "right_elbow_openpose", "right_wrist_openpose",
  "left_shoulder_openpose", "left_elbow_openpose", "left_wrist_openpose", "pelvis_openpose", "right_hip_openpose",
  "right_knee_openpose", "right_ankle_openpose", "left_hip_openpose", "left_knee_openpose", "left_ankle_openpose",
  "right_eye_openpose", "left_eye_openpose", "right_ear_openpose", "left_ear_openpose", "left_bigtoe_openpose",
  "left_smalltoe_openpose", "left_heel_openpose", "right_bigtoe_openpose", "right_smalltoe_openpose", "right_heel_openpose"
]

def OPENPOSE_118_KEYPOINTS : List String := [
  "nose_openpose", "neck_openpose", "right_shoulder_openpose", "right_elbow_openpose", "right_wrist_openpose",
  "left_shoulder_openpose", "left_elbow_openpose", "left_wrist_openpose", "pelvis_openpose", "right_hip_openpose",
  "right_knee_openpose", "right_ankle_openpose", "left_hip_openpose", "left_knee_openpose", "left_ankle_openpose",
  "right_eye_openpose", "left_eye_openpose", "right_ear_openpose", "left_ear_openpose", "left_bigtoe_openpose",
  "left_smalltoe_openpose", "left_heel_openpose", "right_bigtoe_openpose", "right_smalltoe_openpose", "right_heel_openpose",
  "left_wrist", "left_thumb_1", "left_thumb_2", "left_thumb_3", "left_thumb",
  "left_index_1", "left_index_2", "left_index_3", "left_index", "left_middle_1",
  "left_middle_2", "left_middle_3", "left_middle", "left_ring_1", "left_ring_2",
  "left_ring_3", "left_ring", "left_pinky_1", "left_pinky_2", "left_pinky_3",
  "left_pinky", "right_wrist", "right_thumb_1", "right_thumb_2", "right_thumb_3",
  "right_thumb", "right_index_1", "right_index_2", "right_index_3", "right_index",
  "right_middle_1", "right_middle_2", "right_middle_3", "right_middle", "right_ring_1",
  "right_ring_2", "right_ring_3", "right_ring", "right_pinky_1", "right_pinky_2",
  "right_pinky_3", "right_pinky", "right_eyebrow_1", "right_eyebrow_2", "right_eyebrow_3",
  "right_eyebrow_4", "right_eyebrow_5", "left_eyebrow_5", "left_eyebrow_4", "left_eyebrow_3",
  "left_eyebrow_2", "left_eyebrow_1", "nosebridge_1", "nosebridge_2", "nosebridge_3",
  "nosebridge_4", "right_nose_2", "right_nose_1", "nose_middle", "left_nose_1",
  "left_nose_2", "right_eye_1", "right_eye_2", "right_eye_3", "right_eye_4",
  "right_eye_5", "right_eye_6", "left_eye_4", "left_eye_3", "left_eye_2",
  "left_eye_1", "left_eye_6", "left_eye_5", "right_mouth_1", "right_mouth_2",
  "right_mouth_3", "mouth_top", "left_mouth_3", "left_mouth_2", "left_mouth_1",
  "left_mouth_5", "left_mouth_4", "mouth_bottom", "right_mouth_4", "right_mouth_5",
  "right_lip_1", "right_lip_2", "lip_top", "left_lip_2", "left_lip_1",
  "left_lip_3", "lip_bottom", "right_lip_3"
]

def OPENPOSE_JOINTS : List String := [
  "nose", "neck", "right_shoulder", "right_elbow", "right_wrist",
  "left_shoulder", "left_elbow", "left_wrist", "pelvis", "right_hip",
  "right_knee", "right_ankle", "left_hip", "left_knee", "left_ankle",
  "right_eye", "left_eye", "right_ear", "left_ear", "left_wrist",
  "left_thumb_1", "left_thumb_2", "left_thumb_3", "left_thumb", "left_index_1",
  "left_index_2", "left_index_3", "left_index", "left_middle_1", "left_middle_2",
  "left_middle_3", "left_middle", "left_ring_1", "left_ring_2", "left_ring_3",
  "left_ring", "left_pinky_1", "left_pinky_2", "left_pinky_3", "left_pinky",
  "right_wrist", "right_thumb_1", "right_thumb_2", "right_thumb_3", "right_thumb",
  "right_index_1", "right_index_2", "right_index_3", "right_index", "right_middle_1",
  "right_middle_2", "right_middle_3", "right_middle", "right_ring_1", "right_ring_2",
  "right_ring_3", "right_ring", "right_pinky_1", "right_pinky_2", "right_pinky_3",
  "right_pinky", "right_contour_1", "right_contour_2", "right_contour_3", "right_contour_4",
  "right_contour_5", "right_contour_6", "right_contour_7", "right_contour_8", "contour_middle",
  "left_contour_8", "left_contour_7", "left_contour_6", "left_contour_5", "left_contour_4",
  "left_contour_3", "left_contour_2", "left_contour_1", "right_eye_brow_1", "right_eye_brow_2",
  "right_eye_brow_3", "right_eye_brow_4", "right_eye_brow_5", "left_eye_brow_5", "left_eye_brow_4",
  "left_eye_brow_3", "left_eye_brow_2", "left_eye_brow_1", "nosebridge_1", "nosebridge_2",
  "nosebridge_3", "nosebridge_4", "right_nose_2", "right_nose_1", "nose_middle",
  "left_nose_1", "left_nose_2", "right_eye_1", "right_eye_2", "right_eye_3",
  "right_eye_4", "right_eye_5", "right_eye_6", "left_eye_4", "left_eye_3",
  "left_eye_2", "left_eye_1", "left_eye_6", "left_eye_5", "right_mouth_1",
  "right_mouth_2", "right_mouth_3", "mouth_top", "left_mouth_3", "left_mouth_2",
  "left_mouth_1", "left_mouth_5", "left_mouth_4", "mouth_bottom", "right_mouth_4",
  "right_mouth_5", "right_lip_1", "right_lip_2", "lip_top", "left_lip_2",
  "left_lip_1", "left_lip_3", "lip_bottom", "right_lip_3", "right_eye_undefined",
  "left_eye_undefined"
]

def OPENPOSE_FEET_KEYPOINTS : List String := [
  "left_bigtoe", "left_smalltoe", "left_heel", "right_bigtoe", "right_smalltoe",
  "right_heel"
]

def OPENPOSE_137_KEYPOINTS : List String :=
  OPENPOSE_JOINTS.take 19 ++ OPENPOSE_FEET_KEYPOINTS ++ OPENPOSE_JOINTS.drop 19

/-! ## Tensor embedding helpers -/

/-- A row of 3 scalars (a 3d keypoint, an axis-angle rotation, a camera row). -/
abbrev Q3 : Type := ℚ × ℚ × ℚ

/-- A row of 2 scalars (a 2d keypoint). -/
abbrev Q2 : Type := ℚ × ℚ

/-- Boolean mask indexing `x[flags == 1]` along the batch dimension. -/
def maskSelect {α : Type} (flags : List ℚ) (xs : List α) : List α :=
  (flags.zip xs).filterMap (fun p => if p.1 = 1 then some p.2 else none)

/-- `x[has == 1]` where `has` may be Python `None`: `None == 1` is `False`,
so indexing selects nothing. -/
def maskSelectO {α : Type} (flags : Option (List ℚ)) (xs : List α) : List α :=
  match flags with
  | none => []
  | some f => maskSelect f xs

/-- `.numel()` of a batch of rows, each entry of a row holding `d` scalars. -/
def listNumel {α : Type} (d : ℕ) (xs : List (List α)) : ℕ :=
  d * (xs.map List.length).sum

/-- `.mean()` along a dimension embedded as a list. -/
def qmean (l : List ℚ) : ℚ := l.sum / (l.length : ℚ)

def v3add (a b : Q3) : Q3 := (a.1 + b.1, a.2.1 + b.2.1, a.2.2 + b.2.2)

def v3sub (a b : Q3) : Q3 := (a.1 - b.1, a.2.1 - b.2.1, a.2.2 - b.2.2)

def v3mean2 (a b : Q3) : Q3 :=
  ((a.1 + b.1) / 2, (a.2.1 + b.2.1) / 2, (a.2.2 + b.2.2) / 2)

def v3zero : Q3 := (0, 0, 0)

/-- `x[:, [1, 2], :].mean(dim=1)` for one sample: the pelvis proxy used by
`compute_keypoints3d_loss`. -/
def pelvisOf (s : List Q3) : Q3 := v3mean2 (s.getD 1 v3zero) (s.getD 2 v3zero)

/-- Subtract the pelvis proxy from every joint of one sample. -/
def centerSample (s : List Q3) : List Q3 := s.map (fun j => v3sub j (pelvisOf s))

/-- Batched pelvis centering, `x - x[:, [1, 2], :].mean(dim=1, keepdim=True)`. -/
def centerPelvis (x : List (List Q3)) : List (List Q3) := x.map centerSample

/-- `x.view(-1, n, ...)`: regroup a flat list into rows of `n`. -/
def chunk {α : Type} (n : ℕ) (l : List α) : List (List α) :=
  match l, n with
  | [], _ => []
  | _ :: _, 0 => []
  | x :: xs, m + 1 =>
      (x :: xs).take (m + 1) :: chunk (m + 1) ((x :: xs).drop (m + 1))
termination_by l.length
decreasing_by
  simp only [List.length_drop, List.length_cons]
  omega

/-- `batch_rodrigues(pose.view(-1, 3)).view(-1, num_joints, 3, 3)` with the
rotation-matrix type and `batch_rodrigues` itself abstract. -/
def batch_rodrigues_view {R : Type} (rod : Q3 → R) (num_joints : ℕ)
    (pose : List (List Q3)) : List (List R) :=
  chunk num_joints ((pose.flatten).map rod)

/-- `batch_rodrigues(pose.view(-1, 3)).view(-1, 1, 3, 3)` for a batch of
single axis-angle rotations (global orient / jaw pose). -/
def batch_rodrigues_view1 {R : Type} (rod : Q3 → R) (pose : List Q3) :
    List (List R) :=
  chunk 1 (pose.map rod)

/-- `x.shape[1]` of a batched tensor embedded as a nested list. -/
def numJoints {α : Type} (x : List (List α)) : ℕ := (x.headD []).length

/-! ## Per-term loss functions of `SMPLXBodyModelEstimator` -/

/-- `gt_keypoints3d[:, :, :3]`. -/
def kp3dCoords (gt : List (List (Q3 × ℚ))) : List (List Q3) :=
  gt.map (fun s => s.map Prod.fst)

/-- `gt_keypoints3d[:, :, 3].unsqueeze(-1).repeat(1, 1, 3)`. -/
def kp3dConf (gt : List (List (Q3 × ℚ))) : List (List Q3) :=
  gt.map (fun s => s.map (fun k => (k.2, k.2, k.2)))

/-- `SMPLXBodyModelEstimator.compute_keypoints3d_loss`; the loss module
`self.loss_keypoints3d` is a parameter. -/
def compute_keypoints3d_loss
    (loss_keypoints3d : List (List Q3) → List (List Q3) → List (List Q3) → ℚ)
    (pred_keypoints3d : List (List Q3))
    (gt_keypoints3d : List (List (Q3 × ℚ)))
    (has_keypoints3d : Option (List ℚ)) : ℚ :=
  let keypoints3d_conf := kp3dConf gt_keypoints3d
  let gt3 := kp3dCoords gt_keypoints3d
  if listNumel 3 (maskSelectO has_keypoints3d keypoints3d_conf) = 0 then 0
  else
    let predM := maskSelectO has_keypoints3d pred_keypoints3d
    let gtM := maskSelectO has_keypoints3d gt3
    let predC := centerPelvis predM
    let gtC := centerPelvis gtM
    loss_keypoints3d predC gtC (maskSelectO has_keypoints3d keypoints3d_conf) /
      (gtC.length : ℚ)

/-- `gt_keypoints2d[:, :, :2]`. -/
def kp2dCoords (gt : List (List (Q2 × ℚ))) : List (List Q2) :=
  gt.map (fun s => s.map Prod.fst)

/-- `gt_keypoints2d[:, :, 2].unsqueeze(-1).repeat(1, 1, 2)`. -/
def kp2dConf (gt : List (List (Q2 × ℚ))) : List (List Q2) :=
  gt.map (fun s => s.map (fun k => (k.2, k.2)))

/-- `SMPLXBodyModelEstimator.compute_keypoints2d_loss`; the loss module and
`weak_perspective_projection` (applied per sample with that sample's scale
`pred_cam[:, 0]` and translation `pred_cam[:, 1:3]`) are parameters.
`_focal_length` is accepted and unused, as in the source. -/
def compute_keypoints2d_loss
    (loss_keypoints2d : List (List Q2) → List (List Q2) → List (List Q2) → ℚ)
    (weak_perspective_projection : List Q3 → ℚ → Q2 → List Q2)
    (pred_keypoints3d : List (List Q3))
    (pred_cam : List Q3)
    (gt_keypoints2d : List (List (Q2 × ℚ)))
    (img_res : ℚ)
    (_focal_length : ℚ)
    (has_keypoints2d : Option (List ℚ)) : ℚ :=
  let keypoints2d_conf := kp2dConf gt_keypoints2d
  let gt2 := kp2dCoords gt_keypoints2d
  if listNumel 2 (maskSelectO has_keypoints2d keypoints2d_conf) = 0 then 0
  else
    let pred_keypoints2d := List.zipWith
      (fun s c => weak_perspective_projection s c.1 (c.2.1, c.2.2))
      pred_keypoints3d pred_cam
    let gt2n := gt2.map (fun s => s.map (fun k =>
      (2 * k.1 / (img_res - 1) - 1, 2 * k.2 / (img_res - 1) - 1)))
    let predM := maskSelectO has_keypoints2d pred_keypoints2d
    let gtM := maskSelectO has_keypoints2d gt2n
    loss_keypoints2d predM gtM (maskSelectO has_keypoints2d keypoints2d_conf) /
      (gtM.length : ℚ)

/-- `SMPLXBodyModelEstimator.compute_smplx_body_pose_loss`. -/
def compute_smplx_body_pose_loss {R : Type}
    (loss_smplx_body_pose : List (List R) → List (List R) → ℚ)
    (rod : Q3 → R)
    (pred_rotmat : List (List R))
    (gt_pose : List (List Q3))
    (has_smplx_body_pose : List ℚ) : ℚ :=
  let num_joints := numJoints pred_rotmat
  if listNumel 3 (maskSelect has_smplx_body_pose gt_pose) = 0 then 0
  else
    let gt_rotmat := batch_rodrigues_view rod num_joints gt_pose
    loss_smplx_body_pose (maskSelect has_smplx_body_pose pred_rotmat)
      (maskSelect has_smplx_body_pose gt_rotmat)

/-- `SMPLXBodyModelEstimator.compute_smplx_global_orient_loss`. -/
def compute_smplx_global_orient_loss {R : Type}
    (loss_smplx_global_orient : List (List R) → List (List R) → ℚ)
    (rod : Q3 → R)
    (pred_rotmat : List (List R))
    (gt_global_orient : List Q3)
    (has_smplx_global_orient : List ℚ) : ℚ :=
  if 3 * (maskSelect has_smplx_global_orient gt_global_orient).length = 0 then 0
  else
    let gt_rotmat := batch_rodrigues_view1 rod gt_global_orient
    loss_smplx_global_orient (maskSelect has_smplx_global_orient pred_rotmat)
      (maskSelect has_smplx_global_orient gt_rotmat)

/-- `SMPLXBodyModelEstimator.compute_smplx_jaw_pose_loss`; the per-sample
weight is `face_conf.mean(axis=1)` (`.view(-1, 1, 1, 1)` is a broadcast
shape). -/
def compute_smplx_jaw_pose_loss {R : Type}
    (loss_smplx_jaw_pose : List (List R) → List (List R) → List ℚ → ℚ)
    (rod : Q3 → R)
    (pred_rotmat : List (List R))
    (gt_jaw_pose : List Q3)
    (has_smplx_jaw_pose : List ℚ)
    (face_conf : List (List ℚ)) : ℚ :=
  if 3 * (maskSelect has_smplx_jaw_pose gt_jaw_pose).length = 0 then 0
  else
    let gt_rotmat := batch_rodrigues_view1 rod gt_jaw_pose
    let conf := face_conf.map qmean
    loss_smplx_jaw_pose (maskSelect has_smplx_jaw_pose pred_rotmat)
      (maskSelect has_smplx_jaw_pose gt_rotmat)
      (maskSelect has_smplx_jaw_pose conf)

/-- `SMPLXBodyModelEstimator.compute_smplx_hand_pose_loss`; the per-sample
weight is `hand_conf.mean(axis=1, keepdim=True)` expanded to `joint_num`
entries. -/
def compute_smplx_hand_pose_loss {R : Type}
    (loss_smplx_hand_pose : List (List R) → List (List R) → List (List ℚ) → ℚ)
    (rod : Q3 → R)
    (pred_rotmat : List (List R))
    (gt_hand_pose : List (List Q3))
    (has_smplx_hand_pose : List ℚ)
    (hand_conf : List (List ℚ)) : ℚ :=
  let joint_num := numJoints pred_rotmat
  if listNumel 3 (maskSelect has_smplx_hand_pose gt_hand_pose) = 0 then 0
  else
    let gt_rotmat := batch_rodrigues_view rod joint_num gt_hand_pose
    let conf := hand_conf.map (fun s => List.replicate joint_num (qmean s))
    loss_smplx_hand_pose (maskSelect has_smplx_hand_pose pred_rotmat)
      (maskSelect has_smplx_hand_pose gt_rotmat)
      (maskSelect has_smplx_hand_pose conf)

/-- `SMPLXBodyModelEstimator.compute_smplx_betas_loss`. -/
def compute_smplx_betas_loss
    (loss_smplx_betas : List (List ℚ) → List (List ℚ) → ℚ)
    (pred_betas gt_betas : List (List ℚ))
    (has_smplx_betas : List ℚ) : ℚ :=
  if listNumel 1 (maskSelect has_smplx_betas gt_betas) = 0 then 0
  else
    loss_smplx_betas (maskSelect has_smplx_betas pred_betas)
      (maskSelect has_smplx_betas gt_betas) /
      ((maskSelect has_smplx_betas gt_betas).length : ℚ)

/-- `SMPLXBodyModelEstimator.compute_smplx_expression_loss`; the per-sample
weight is `face_conf.mean(axis=1)` (`.view(-1, 1)` is a broadcast shape). -/
def compute_smplx_expression_loss
    (loss_smplx_expression : List (List ℚ) → List (List ℚ) → List ℚ → ℚ)
    (pred_expression gt_expression : List (List ℚ))
    (has_smplx_expression : List ℚ)
    (face_conf : List (List ℚ)) : ℚ :=
  if listNumel 1 (maskSelect has_smplx_expression gt_expression) = 0 then 0
  else
    let conf := face_conf.map qmean
    loss_smplx_expression (maskSelect has_smplx_expression pred_expression)
      (maskSelect has_smplx_expression gt_expression)
      (maskSelect has_smplx_expression conf) /
      ((maskSelect has_smplx_expression gt_expression).length : ℚ)

/-- `SMPLXBodyModelEstimator.forward_train` raises `NotImplementedError`. -/
def forward_train {α : Type} (_kwargs : α) : Except String Unit :=
  Except.error ("This interface should not be used in " ++
    "current training schedule. Please use " ++
    "`train_step` for training.")

/-! ## `train_step` control flow -/

/-- Observable events of `SMPLXBodyModelEstimator.train_step`, in program
order. -/
inductive TrainEvent : Type
  | backboneForward
  | featuresFromBatch
  | neckForward
  | headForward
  | prepareTargets
  | optimizeDiscriminator
  | computeLosses
  | optimizeGenerator
  | parseLosses
  | zeroGradBackbone
  | zeroGradNeck
  | zeroGradHead
  | backward
  | stepBackbone
  | stepNeck
  | stepHead
deriving DecidableEq, Repr

/-- Result of one `train_step`: the ordered trace of events and the loss
dictionary handed to `_parse_losses`. -/
structure TrainStepResult : Type where
  trace : List TrainEvent
  lossDict : List (String × ℚ)
deriving DecidableEq, Repr

/-- `SMPLXBodyModelEstimator.train_step`: `hasBackbone`, `hasNeck`,
`hasHead` and `hasDisc` record which optional modules are configured
(`self.x is not None`); `baseLosses` is the dictionary returned by
`self.compute_losses(predictions, targets)` and `advLoss` the value
returned by `optimize_generator` as `adv_loss`. -/
def train_step (hasBackbone hasNeck hasHead hasDisc : Bool)
    (baseLosses : List (String × ℚ)) (advLoss : ℚ) : TrainStepResult :=
  let t0 : List TrainEvent :=
    if hasBackbone then [TrainEvent.backboneForward]
    else [TrainEvent.featuresFromBatch]
  let t1 := if hasNeck then t0 ++ [TrainEvent.neckForward] else t0
  let t2 := t1 ++ [TrainEvent.headForward, TrainEvent.prepareTargets]
  let t3 := if hasDisc then t2 ++ [TrainEvent.optimizeDiscriminator] else t2
  let t4 := t3 ++ [TrainEvent.computeLosses]
  let losses :=
    if hasDisc then baseLosses ++ [("adv_loss", advLoss)] else baseLosses
  let t5 := if hasDisc then t4 ++ [TrainEvent.optimizeGenerator] else t4
  let t6 := t5 ++ [TrainEvent.parseLosses]
  let t7 := t6 ++ (if hasBackbone then [TrainEvent.zeroGradBackbone] else [])
  let t8 := t7 ++ (if hasNeck then [TrainEvent.zeroGradNeck] else [])
  let t9 := t8 ++ (if hasHead then [TrainEvent.zeroGradHead] else [])
  let t10 := t9 ++ [TrainEvent.backward]
  let t11 := t10 ++ (if hasBackbone then [TrainEvent.stepBackbone] else [])
  let t12 := t11 ++ (if hasNeck then [TrainEvent.stepNeck] else [])
  let t13 := t12 ++ (if hasHead then [TrainEvent.stepHead] else [])
  { trace := t13, lossDict := losses }

/-! ## SPIN SMPLify registrant configuration (`resnet50_spin_pw3d.py`) -/

/-- One stage dict of the SMPLify `stages` list. -/
structure SMPLifyStageCfg : Type where
  num_iter : ℕ
  fit_global_orient : Bool
  fit_transl : Bool
  fit_body_pose : Bool
  fit_betas : Bool
deriving DecidableEq, Repr

structure OptimizerCfg : Type where
  type : String
  lr : ℚ
  betas : ℚ × ℚ
deriving DecidableEq, Repr

structure Keypoints2dLossCfg : Type where
  type : String
  loss_weight : ℚ
  reduction : String
  sigma : ℚ
deriving DecidableEq, Repr

structure PriorLossCfg : Type where
  type : String
  loss_weight : ℚ
  reduction : String
deriving DecidableEq, Repr

structure PosePriorLossCfg : Type where
  type : String
  prior_folder : String
  num_gaussians : ℕ
  loss_weight : ℚ
  reduction : String
deriving DecidableEq, Repr

/-- The `registrant` dict of `configs/spin/resnet50_spin_pw3d.py`. -/
structure RegistrantCfg : Type where
  type : String
  num_epochs : ℕ
  stages : List SMPLifyStageCfg
  optimizer : OptimizerCfg
  keypoints2d_loss : Keypoints2dLossCfg
  shape_prior_loss : PriorLossCfg
  joint_prior_loss : PriorLossCfg
  pose_prior_loss : PosePriorLossCfg
  ignore_keypoints : List String
deriving DecidableEq, Repr

def registrant : RegistrantCfg :=
  { type := "SMPLify"
    num_epochs := 1
    stages := [
      { num_iter := 50
        fit_global_orient := true
        fit_transl := true
        fit_body_pose := false
        fit_betas := false },
      { num_iter := 50
        fit_global_orient := true
        fit_transl := false
        fit_body_pose := true
        fit_betas := true }]
    optimizer := { type := "Adam", lr := 1 / 100, betas := (9 / 10, 999 / 1000) }
    keypoints2d_loss :=
      { type := "KeypointMSELoss", loss_weight := 1, reduction := "sum"
        sigma := 100 }
    shape_prior_loss :=
      { type := "ShapePriorLoss", loss_weight := 5 ^ 2, reduction := "sum" }
    joint_prior_loss :=
      { type := "JointPriorLoss", loss_weight := (152 / 10) ^ 2
        reduction := "sum" }
    pose_prior_loss :=
      { type := "MaxMixturePrior", prior_folder := "data", num_gaussians := 8
        loss_weight := (478 / 100) ^ 2, reduction := "sum" }
    ignore_keypoints := [
      "neck_openpose", "right_hip_openpose", "left_hip_openpose",
      "right_hip_extra", "left_hip_extra"] }

/-- Modelled from the spec: the SMPLify registrant is an "iterative
gradient-based optimizer fitting body-model parameters to observed 2D/3D
keypoints" run as a "staged optimizer"; the `SMPLify` class itself is not
part of this snapshot, so its iteration schedule is modelled as running,
in each of `num_epochs` epochs, every configured stage for its
`num_iter` iterations with that stage's fit flags. -/
def smplifySchedule (cfg : RegistrantCfg) : List SMPLifyStageCfg :=
  (List.replicate cfg.num_epochs cfg.stages).flatten

/-- Total number of optimizer iterations the schedule performs. -/
def smplifyTotalIters (cfg : RegistrantCfg) : ℕ :=
  ((smplifySchedule cfg).map SMPLifyStageCfg.num_iter).sum

/-- Modelled from the spec: a confidence-weighted keypoint loss module
("confidence-weighted terms multiply per-joint weights elementwise before
reduction").  The concrete loss modules built by `build_loss` are outside
this snapshot; `phi` is the per-coordinate residual, and every scalar of
`weight` multiplies the residual of the matching scalar of `pred`/`gt`
before everything is summed. -/
def specWeightedLoss3 (phi : ℚ → ℚ → ℚ)
    (pred gt weight : List (List Q3)) : ℚ :=
  ((pred.zip (gt.zip weight)).map (fun sample =>
    ((sample.1.zip (sample.2.1.zip sample.2.2)).map (fun j =>
      j.2.2.1 * phi j.1.1 j.2.1.1 +
      j.2.2.2.1 * phi j.1.2.1 j.2.1.2.1 +
      j.2.2.2.2 * phi j.1.2.2 j.2.1.2.2)).sum)).sum

/-! ## Lemmas about mask selection -/

/-- Two batches agree on every sample whose validity flag equals 1. -/
def AgreeOn {α : Type} (flags : List ℚ) (xs ys : List α) : Prop :=
  ∀ i : ℕ, flags[i]? = some 1 → xs[i]? = ys[i]?

theorem maskSelect_nil_left {α : Type} (xs : List α) : maskSelect [] xs = [] := rfl

theorem maskSelect_nil_right {α : Type} (flags : List ℚ) :
    maskSelect flags ([] : List α) = [] := by
  simp [maskSelect]

theorem maskSelect_cons {α : Type} (f : ℚ) (fs : List ℚ) (x : α) (xs : List α) :
    maskSelect (f :: fs) (x :: xs) =
      if f = 1 then x :: maskSelect fs xs else maskSelect fs xs := by
  simp only [maskSelect, List.zip_cons_cons, List.filterMap_cons]
  by_cases hf : f = 1 <;> simp [hf]

theorem AgreeOn.tail {α : Type} {f : ℚ} {fs : List ℚ} {x y : α}
    {xs ys : List α} (h : AgreeOn (f :: fs) (x :: xs) (y :: ys)) :
    AgreeOn fs xs ys := by
  intro i hi
  have := h (i + 1) (by simpa using hi)
  simpa using this

theorem maskSelect_congr {α : Type} :
    ∀ (flags : List ℚ) (xs ys : List α),
      AgreeOn flags xs ys → maskSelect flags xs = maskSelect flags ys := by
  intro flags
  induction flags with
  | nil => intro xs ys _; rfl
  | cons f fs ih =>
    intro xs ys h
    match xs, ys with
    | [], [] => rfl
    | [], y :: ys =>
      by_cases hf : f = 1
      · have h0 := h 0 (by simp [hf])
        simp at h0
      · rw [maskSelect_nil_right, maskSelect_cons, if_neg hf]
        have : maskSelect fs [] = maskSelect fs ys := by
          apply ih
          intro i hi
          have := h (i + 1) (by simpa using hi)
          simpa using this
        rw [← this, maskSelect_nil_right]
    | x :: xs, [] =>
      by_cases hf : f = 1
      · have h0 := h 0 (by simp [hf])
        simp at h0
      · rw [maskSelect_nil_right, maskSelect_cons, if_neg hf]
        have : maskSelect fs xs = maskSelect fs [] := by
          apply ih
          intro i hi
          have := h (i + 1) (by simpa using hi)
          simpa using this
        rw [this, maskSelect_nil_right]
    | x :: xs, y :: ys =>
      rw [maskSelect_cons, maskSelect_cons]
      by_cases hf : f = 1
      · have h0 := h 0 (by simp [hf])
        simp at h0
        rw [if_pos hf, if_pos hf, h0, ih xs ys h.tail]
      · rw [if_neg hf, if_neg hf, ih xs ys h.tail]

theorem maskSelect_map {α β : Type} (g : α → β) :
    ∀ (flags : List ℚ) (xs : List α),
      maskSelect flags (xs.map g) = (maskSelect flags xs).map g := by
  intro flags
  induction flags with
  | nil => intro xs; rfl
  | cons f fs ih =>
    intro xs
    match xs with
    | [] => simp [maskSelect_nil_right]
    | x :: xs =>
      rw [List.map_cons, maskSelect_cons, maskSelect_cons]
      by_cases hf : f = 1
      · rw [if_pos hf, if_pos hf, List.map_cons, ih]
      · rw [if_neg hf, if_neg hf, ih]

theorem maskSelect_eq_nil {α : Type} :
    ∀ (flags : List ℚ), (∀ x ∈ flags, x ≠ 1) →
      ∀ (xs : List α), maskSelect flags xs = [] := by
  intro flags
  induction flags with
  | nil => intro _ xs; rfl
  | cons f fs ih =>
    intro h xs
    match xs with
    | [] => exact maskSelect_nil_right _
    | x :: xs =>
      rw [maskSelect_cons, if_neg (h f (List.mem_cons_self f fs))]
      exact ih (fun x hx => h x (List.mem_cons_of_mem f hx)) xs

theorem maskSelect_eq_nil_of {α : Type} {flags : List ℚ}
    (h : ∀ x ∈ flags, x ≠ 1) (xs : List α) : maskSelect flags xs = [] :=
  maskSelect_eq_nil flags h xs

theorem maskSelect_subset {α : Type} {flags : List ℚ} {xs : List α} {a : α}
    (h : a ∈ maskSelect flags xs) : a ∈ xs := by
  simp only [maskSelect, List.mem_filterMap] at h
  obtain ⟨⟨f, b⟩, hmem, hb⟩ := h
  by_cases hf : f = 1
  · simp [hf] at hb
    exact hb ▸ (List.of_mem_zip hmem).2
  · simp [hf] at hb

theorem AgreeOn.map {α β : Type} {flags : List ℚ} {xs ys : List α}
    (g : α → β) (h : AgreeOn flags xs ys) :
    AgreeOn flags (xs.map g) (ys.map g) := by
  intro i hi
  rw [List.getElem?_map, List.getElem?_map, h i hi]

theorem AgreeOn.zipWith {α β γ : Type} {flags : List ℚ}
    {xs ys : List α} {as bs : List β} (g : α → β → γ)
    (h : AgreeOn flags xs ys) (h' : AgreeOn flags as bs) :
    AgreeOn flags (List.zipWith g xs as) (List.zipWith g ys bs) := by
  intro i hi
  rw [List.getElem?_zipWith', List.getElem?_zipWith', h i hi, h' i hi]

/-! ## Lemmas about `chunk` -/

theorem chunk_cons_succ {α : Type} (m : ℕ) (x : α) (xs : List α) :
    chunk (m + 1) (x :: xs) =
      (x :: xs).take (m + 1) :: chunk (m + 1) ((x :: xs).drop (m + 1)) := by
  rw [chunk]

theorem chunk_nil {α : Type} (n : ℕ) : chunk n ([] : List α) = [] := by
  rw [chunk]

theorem chunk_append {α : Type} {n : ℕ} (s t : List α)
    (hs : s.length = n) (hn : 0 < n) :
    chunk n (s ++ t) = s :: chunk n t := by
  match n, hn with
  | m + 1, _ =>
    match s, hs with
    | a :: s', hs =>
      rw [List.cons_append, chunk_cons_succ, ← List.cons_append]
      congr 1
      · rw [← hs]
        exact List.take_left _ _
      · rw [← hs, List.drop_left]

theorem chunk_flatten {α : Type} {n : ℕ} (hn : 0 < n) :
    ∀ (xs : List (List α)), (∀ s ∈ xs, s.length = n) →
      chunk n xs.flatten = xs := by
  intro xs
  induction xs with
  | nil =>
    intro _
    rw [List.flatten_nil, chunk_nil]
  | cons s rest ih =>
    intro h
    rw [List.flatten_cons, chunk_append s rest.flatten
      (h s (List.mem_cons_self s rest)) hn]
    rw [ih (fun t ht => h t (List.mem_cons_of_mem s ht))]

theorem flatten_map_singleton {α : Type} (l : List α) :
    (l.map (fun a => [a])).flatten = l := by
  induction l with
  | nil => rfl
  | cons x xs ih => simp [ih]

theorem chunk_one {α : Type} (l : List α) :
    chunk 1 l = l.map (fun a => [a]) := by
  conv_lhs => rw [← flatten_map_singleton l]
  exact chunk_flatten (by omega) _ (by simp)

theorem batch_rodrigues_view_eq_map {R : Type} (rod : Q3 → R) {n : ℕ}
    (hn : 0 < n) (pose : List (List Q3)) (h : ∀ s ∈ pose, s.length = n) :
    batch_rodrigues_view rod n pose = pose.map (fun s => s.map rod) := by
  unfold batch_rodrigues_view
  rw [List.map_flatten]
  rw [chunk_flatten hn]
  simp only [List.mem_map]
  rintro t ⟨s, hs, rfl⟩
  rw [List.length_map]
  exact h s hs

theorem batch_rodrigues_view1_eq_map {R : Type} (rod : Q3 → R)
    (pose : List Q3) :
    batch_rodrigues_view1 rod pose = pose.map (fun a => [rod a]) := by
  unfold batch_rodrigues_view1
  rw [chunk_one, List.map_map]
  rfl

/-! ## Lemmas about pelvis centering -/

theorem v3sub_v3add (j p t : Q3) : v3sub (v3add j t) (v3add p t) = v3sub j p := by
  simp only [v3sub, v3add, Prod.mk.injEq]
  exact ⟨by ring, by ring, by ring⟩

theorem v3mean2_v3add (a b t : Q3) :
    v3mean2 (v3add a t) (v3add b t) = v3add (v3mean2 a b) t := by
  simp only [v3mean2, v3add, Prod.mk.injEq]
  exact ⟨by ring, by ring, by ring⟩

theorem getD_map_of_lt {α β : Type} (g : α → β) (s : List α) (i : ℕ)
    (h : i < s.length) (d : β) (d' : α) :
    (s.map g).getD i d = g (s.getD i d') := by
  rw [List.getD_eq_getElem?_getD, List.getD_eq_getElem?_getD,
    List.getElem?_map, List.getElem?_eq_getElem h]
  simp

theorem centerSample_map_v3add (t : Q3) (s : List Q3) (h : 3 ≤ s.length) :
    centerSample (s.map (fun j => v3add j t)) = centerSample s := by
  unfold centerSample pelvisOf
  have h1 : 1 < s.length := by omega
  have h2 : 2 < s.length := by omega
  rw [getD_map_of_lt _ _ _ h1 v3zero v3zero,
    getD_map_of_lt _ _ _ h2 v3zero v3zero, List.map_map]
  apply List.map_congr_left
  intro j _
  simp only [Function.comp_apply]
  rw [v3mean2_v3add, v3sub_v3add]

/-! ## Lemmas about the spec-modelled weighted loss -/

theorem specWeightedLoss3_aligned {τ : Type} (phi : ℚ → ℚ → ℚ)
    (w : List (List τ)) (f1 f2 f3 : List τ → τ → Q3) :
    specWeightedLoss3 phi (w.map (fun s => s.map (f1 s)))
      (w.map (fun s => s.map (f2 s)))
      (w.map (fun s => s.map (f3 s))) =
    (w.map (fun s => (s.map (fun x =>
      (f3 s x).1 * phi (f1 s x).1 (f2 s x).1 +
      (f3 s x).2.1 * phi (f1 s x).2.1 (f2 s x).2.1 +
      (f3 s x).2.2 * phi (f1 s x).2.2 (f2 s x).2.2)).sum)).sum := by
  unfold specWeightedLoss3
  rw [List.zip_map', List.zip_map', List.map_map]
  congr 1
  apply List.map_congr_left
  intro s _
  simp only [Function.comp_apply]
  rw [List.zip_map', List.zip_map', List.map_map]
  rfl


/-! ## Claim theorems -/

/-- Claim C5: the OpenPose convention tables have the sizes their names
state: 25, 118, 135 entries, and `OPENPOSE_137_KEYPOINTS`, built as
`OPENPOSE_JOINTS[:19] ++ OPENPOSE_FEET_KEYPOINTS ++ OPENPOSE_JOINTS[19:]`,
has exactly 137 entries. -/
theorem openpose_convention_lengths :
    OPENPOSE_25_KEYPOINTS.length = 25 ∧
    OPENPOSE_118_KEYPOINTS.length = 118 ∧
    OPENPOSE_135_KEYPOINTS.length = 135 ∧
    OPENPOSE_137_KEYPOINTS =
      OPENPOSE_JOINTS.take 19 ++ OPENPOSE_FEET_KEYPOINTS ++
        OPENPOSE_JOINTS.drop 19 ∧
    OPENPOSE_137_KEYPOINTS.length = 137 := by
  refine ⟨by decide, by decide, by decide, rfl, by decide⟩

/-- Claim C3 is false as stated: `OPENPOSE_137_KEYPOINTS` contains the
name `left_wrist` twice (and `right_wrist` twice), because
`OPENPOSE_JOINTS` lists the wrists both in its body section and at the
start of each hand section, so a name-based index lookup is not unique on
this list. -/
theorem openpose137_duplicate_left_wrist :
    OPENPOSE_137_KEYPOINTS.count "left_wrist" = 2 ∧
    ¬ OPENPOSE_137_KEYPOINTS.Nodup := by
  refine ⟨by decide, fun h => ?_⟩
  have h1 : OPENPOSE_137_KEYPOINTS.count "left_wrist" ≤ 1 :=
    List.nodup_iff_count_le_one.mp h "left_wrist"
  have h2 : OPENPOSE_137_KEYPOINTS.count "left_wrist" = 2 := by decide
  omega

/-- Claim C3, amended: each keypoint name occurs at most once in
`OPENPOSE_25_KEYPOINTS`, `OPENPOSE_118_KEYPOINTS` and
`OPENPOSE_135_KEYPOINTS`; in `OPENPOSE_137_KEYPOINTS` every name other
than `left_wrist` and `right_wrist` occurs at most once, while those two
names occur exactly twice each. -/
theorem openpose_name_uniqueness_amended :
    OPENPOSE_25_KEYPOINTS.Nodup ∧
    OPENPOSE_118_KEYPOINTS.Nodup ∧
    OPENPOSE_135_KEYPOINTS.Nodup ∧
    OPENPOSE_137_KEYPOINTS.count "left_wrist" = 2 ∧
    OPENPOSE_137_KEYPOINTS.count "right_wrist" = 2 ∧
    (OPENPOSE_137_KEYPOINTS.filter
      (fun s => s != "left_wrist" && s != "right_wrist")).Nodup := by
  refine ⟨by decide, by decide, by decide, by decide, by decide, by decide⟩

/-- Claim C7: the SPIN configuration's SMPLify registrant runs one epoch
of exactly two stages of 50 iterations each; stage 1 fits only global
orientation and translation (body pose and betas fixed), stage 2 fits
global orientation, body pose and betas but not translation; the data
terms are a keypoint MSE loss on 2D keypoints plus shape, joint and
Gaussian-mixture pose priors. -/
theorem spin_registrant_staged_schedule :
    registrant.type = "SMPLify" ∧
    registrant.num_epochs = 1 ∧
    smplifySchedule registrant =
      [{ num_iter := 50, fit_global_orient := true, fit_transl := true,
         fit_body_pose := false, fit_betas := false },
       { num_iter := 50, fit_global_orient := true, fit_transl := false,
         fit_body_pose := true, fit_betas := true }] ∧
    smplifyTotalIters registrant = 100 ∧
    registrant.keypoints2d_loss.type = "KeypointMSELoss" ∧
    registrant.shape_prior_loss.type = "ShapePriorLoss" ∧
    registrant.joint_prior_loss.type = "JointPriorLoss" ∧
    registrant.pose_prior_loss.type = "MaxMixturePrior" ∧
    registrant.pose_prior_loss.num_gaussians = 8 := by
  refine ⟨rfl, rfl, by decide, by decide, rfl, rfl, rfl, rfl, rfl⟩

/-- Claim C10: `forward_train` raises `NotImplementedError` for every
input, performing no computation; it is embedded as a function returning
the error unconditionally. -/
theorem forward_train_always_raises :
    ∀ (α : Type) (kwargs : α),
      forward_train kwargs = Except.error
        ("This interface should not be used in " ++
          "current training schedule. Please use " ++
          "`train_step` for training.") :=
  fun _ _ => rfl

/-- Claim C8: when the `has_keypoints3d` flag tensor is absent (Python
`None`), `compute_keypoints3d_loss` returns the zero loss for every
input, and likewise `compute_keypoints2d_loss` when `has_keypoints2d` is
`None`: `None == 1` is `False`, so the masked selection is empty and the
empty-selection guard fires. -/
theorem keypoints_loss_zero_when_flag_none :
    ∀ (L3 : List (List Q3) → List (List Q3) → List (List Q3) → ℚ)
      (pred3 : List (List Q3)) (gt3 : List (List (Q3 × ℚ)))
      (L2 : List (List Q2) → List (List Q2) → List (List Q2) → ℚ)
      (proj : List Q3 → ℚ → Q2 → List Q2)
      (pred3b : List (List Q3)) (cam : List Q3)
      (gt2 : List (List (Q2 × ℚ))) (res fl : ℚ),
      compute_keypoints3d_loss L3 pred3 gt3 none = 0 ∧
      compute_keypoints2d_loss L2 proj pred3b cam gt2 res fl none = 0 := by
  intro L3 pred3 gt3 L2 proj pred3b cam gt2 res fl
  constructor
  · simp [compute_keypoints3d_loss, maskSelectO, listNumel]
  · simp [compute_keypoints2d_loss, maskSelectO, listNumel]


/-- Claim C6: in `train_step`, adversarial training runs if and only if a
discriminator is configured.  With a discriminator, the discriminator is
optimized after predictions and targets are obtained and before the
generator losses are parsed, and an `adv_loss` entry is appended to the
generator loss dict; without one, no discriminator step occurs and the
loss dict is exactly `compute_losses`' result, with no adversarial
term. -/
theorem train_step_adversarial_iff
    (hasBackbone hasNeck hasHead hasDisc : Bool)
    (baseLosses : List (String × ℚ)) (advLoss : ℚ)
    (hbase : "adv_loss" ∉ baseLosses.map Prod.fst) :
    (("adv_loss" ∈ (train_step hasBackbone hasNeck hasHead hasDisc
        baseLosses advLoss).lossDict.map Prod.fst) ↔ hasDisc = true) ∧
    ((TrainEvent.optimizeDiscriminator ∈ (train_step hasBackbone hasNeck
        hasHead hasDisc baseLosses advLoss).trace) ↔ hasDisc = true) ∧
    (hasDisc = true →
      ("adv_loss", advLoss) ∈ (train_step hasBackbone hasNeck hasHead
        hasDisc baseLosses advLoss).lossDict ∧
      ∃ pre post, (train_step hasBackbone hasNeck hasHead hasDisc
        baseLosses advLoss).trace =
        pre ++ [TrainEvent.headForward, TrainEvent.prepareTargets,
          TrainEvent.optimizeDiscriminator, TrainEvent.computeLosses,
          TrainEvent.optimizeGenerator, TrainEvent.parseLosses] ++ post) ∧
    (hasDisc = false →
      (train_step hasBackbone hasNeck hasHead hasDisc baseLosses
        advLoss).lossDict = baseLosses ∧
      TrainEvent.optimizeDiscriminator ∉ (train_step hasBackbone hasNeck
        hasHead hasDisc baseLosses advLoss).trace ∧
      TrainEvent.optimizeGenerator ∉ (train_step hasBackbone hasNeck
        hasHead hasDisc baseLosses advLoss).trace) := by
  cases hasDisc
  · refine ⟨?_, ?_, ?_, ?_⟩
    · simp [train_step, hbase]
    · cases hasBackbone <;> cases hasNeck <;> cases hasHead <;>
        simp [train_step]
    · intro h; exact absurd h (by simp)
    · intro _
      refine ⟨by simp [train_step], ?_, ?_⟩ <;>
        cases hasBackbone <;> cases hasNeck <;> cases hasHead <;>
          simp [train_step]
  · refine ⟨?_, ?_, ?_, ?_⟩
    · simp [train_step]
    · cases hasBackbone <;> cases hasNeck <;> cases hasHead <;>
        simp [train_step]
    · intro _
      refine ⟨by simp [train_step],
        (if hasBackbone then [TrainEvent.backboneForward]
          else [TrainEvent.featuresFromBatch]) ++
          (if hasNeck then [TrainEvent.neckForward] else []),
        (if hasBackbone then [TrainEvent.zeroGradBackbone] else []) ++
          (if hasNeck then [TrainEvent.zeroGradNeck] else []) ++
          (if hasHead then [TrainEvent.zeroGradHead] else []) ++
          [TrainEvent.backward] ++
          (if hasBackbone then [TrainEvent.stepBackbone] else []) ++
          (if hasNeck then [TrainEvent.stepNeck] else []) ++
          (if hasHead then [TrainEvent.stepHead] else []), ?_⟩
      cases hasBackbone <;> cases hasNeck <;> cases hasHead <;>
        simp [train_step]
    · intro h; exact absurd h (by simp)

/-- Witness for C6 at a concrete input: with a discriminator, backbone and
neck configured and base losses `[("keypoints3d_loss", 3)]`, the loss dict
gains `adv_loss` and the discriminator step runs between target
preparation and loss parsing. -/
theorem train_step_adversarial_iff_witness :
    ("adv_loss" ∉ ([("keypoints3d_loss", (3 : ℚ))].map Prod.fst)) ∧
    ((("adv_loss" ∈ (train_step true true true true
        [("keypoints3d_loss", (3 : ℚ))] 7).lossDict.map Prod.fst) ↔
        true = true) ∧
     ((TrainEvent.optimizeDiscriminator ∈ (train_step true true true true
        [("keypoints3d_loss", (3 : ℚ))] 7).trace) ↔ true = true) ∧
     (true = true →
       ("adv_loss", (7 : ℚ)) ∈ (train_step true true true true
         [("keypoints3d_loss", (3 : ℚ))] 7).lossDict ∧
       ∃ pre post, (train_step true true true true
         [("keypoints3d_loss", (3 : ℚ))] 7).trace =
         pre ++ [TrainEvent.headForward, TrainEvent.prepareTargets,
           TrainEvent.optimizeDiscriminator, TrainEvent.computeLosses,
           TrainEvent.optimizeGenerator, TrainEvent.parseLosses] ++ post) ∧
     (true = false →
       (train_step true true true true [("keypoints3d_loss", (3 : ℚ))]
         7).lossDict = [("keypoints3d_loss", (3 : ℚ))] ∧
       TrainEvent.optimizeDiscriminator ∉ (train_step true true true true
         [("keypoints3d_loss", (3 : ℚ))] 7).trace ∧
       TrainEvent.optimizeGenerator ∉ (train_step true true true true
         [("keypoints3d_loss", (3 : ℚ))] 7).trace)) :=
  ⟨by decide, train_step_adversarial_iff true true true true
    [("keypoints3d_loss", (3 : ℚ))] 7 (by decide)⟩

/-- Claim C2: every per-term loss function short-circuits to the zero
loss when no sample has its validity flag equal to 1, for every choice of
the underlying loss module (so the module is never invoked). -/
theorem empty_mask_zero_loss {R : Type}
    (L3 : List (List Q3) → List (List Q3) → List (List Q3) → ℚ)
    (L2 : List (List Q2) → List (List Q2) → List (List Q2) → ℚ)
    (proj : List Q3 → ℚ → Q2 → List Q2)
    (Lbp Lgo : List (List R) → List (List R) → ℚ)
    (Ljaw : List (List R) → List (List R) → List ℚ → ℚ)
    (Lhand : List (List R) → List (List R) → List (List ℚ) → ℚ)
    (Lbetas : List (List ℚ) → List (List ℚ) → ℚ)
    (Lexpr : List (List ℚ) → List (List ℚ) → List ℚ → ℚ)
    (rod : Q3 → R)
    (pred3 : List (List Q3)) (gt3 : List (List (Q3 × ℚ)))
    (pred3b : List (List Q3)) (cam : List Q3)
    (gt2 : List (List (Q2 × ℚ))) (res fl : ℚ)
    (predbp : List (List R)) (gtbp : List (List Q3))
    (predgo : List (List R)) (gtgo : List Q3)
    (predjaw : List (List R)) (gtjaw : List Q3) (fconf : List (List ℚ))
    (predhand : List (List R)) (gthand : List (List Q3))
    (hconf : List (List ℚ))
    (predbetas gtbetas : List (List ℚ))
    (predexpr gtexpr : List (List ℚ)) (fconf2 : List (List ℚ))
    (flags : List ℚ) (hflags : ∀ x ∈ flags, x ≠ 1) :
    compute_keypoints3d_loss L3 pred3 gt3 (some flags) = 0 ∧
    compute_keypoints2d_loss L2 proj pred3b cam gt2 res fl (some flags) = 0 ∧
    compute_smplx_body_pose_loss Lbp rod predbp gtbp flags = 0 ∧
    compute_smplx_global_orient_loss Lgo rod predgo gtgo flags = 0 ∧
    compute_smplx_jaw_pose_loss Ljaw rod predjaw gtjaw flags fconf = 0 ∧
    compute_smplx_hand_pose_loss Lhand rod predhand gthand flags hconf = 0 ∧
    compute_smplx_betas_loss Lbetas predbetas gtbetas flags = 0 ∧
    compute_smplx_expression_loss Lexpr predexpr gtexpr flags fconf2 = 0 := by
  refine ⟨?_, ?_, ?_, ?_, ?_, ?_, ?_, ?_⟩
  · simp [compute_keypoints3d_loss, maskSelectO, maskSelect_eq_nil_of hflags, listNumel]
  · simp [compute_keypoints2d_loss, maskSelectO, maskSelect_eq_nil_of hflags, listNumel]
  · simp [compute_smplx_body_pose_loss, maskSelect_eq_nil_of hflags, listNumel]
  · simp [compute_smplx_global_orient_loss, maskSelect_eq_nil_of hflags]
  · simp [compute_smplx_jaw_pose_loss, maskSelect_eq_nil_of hflags]
  · simp [compute_smplx_hand_pose_loss, maskSelect_eq_nil_of hflags, listNumel]
  · simp [compute_smplx_betas_loss, maskSelect_eq_nil_of hflags, listNumel]
  · simp [compute_smplx_expression_loss, maskSelect_eq_nil_of hflags, listNumel]

/-- Witness for C2 at a concrete input: with flags `[0, 2]` (no flag is
1), nonempty batches and constant loss modules returning 5, every
per-term loss is 0 — the constant modules are never consulted. -/
theorem empty_mask_zero_loss_witness :
    (∀ x ∈ [(0 : ℚ), 2], x ≠ 1) ∧
    (compute_keypoints3d_loss (fun _ _ _ => 5)
        ([[(1, 1, 1)], [(2, 2, 2)]] : List (List Q3))
        ([[((1, 1, 1), 1)], [((2, 2, 2), 1)]] : List (List (Q3 × ℚ)))
        (some [0, 2]) = 0 ∧
      compute_keypoints2d_loss (fun _ _ _ => 5)
        (fun s _ _ => s.map (fun j => (j.1, j.2.1)))
        ([[(1, 1, 1)]] : List (List Q3)) ([(1, 0, 0)] : List Q3)
        ([[((1, 1), 1)]] : List (List (Q2 × ℚ))) 224 5000
        (some [0, 2]) = 0 ∧
      compute_smplx_body_pose_loss (fun _ _ => 5) (fun v => v.1)
        ([[(1 : ℚ)]] : List (List ℚ)) ([[(1, 2, 3)]] : List (List Q3))
        [0, 2] = 0 ∧
      compute_smplx_global_orient_loss (fun _ _ => 5) (fun v => v.1)
        ([[(1 : ℚ)]] : List (List ℚ)) ([(1, 2, 3)] : List Q3)
        [0, 2] = 0 ∧
      compute_smplx_jaw_pose_loss (fun _ _ _ => 5) (fun v => v.1)
        ([[(1 : ℚ)]] : List (List ℚ)) ([(1, 2, 3)] : List Q3) [0, 2]
        [[1]] = 0 ∧
      compute_smplx_hand_pose_loss (fun _ _ _ => 5) (fun v => v.1)
        ([[(1 : ℚ)]] : List (List ℚ)) ([[(1, 2, 3)]] : List (List Q3))
        [0, 2] [[1]] = 0 ∧
      compute_smplx_betas_loss (fun _ _ => 5) [[1]] [[2]] [0, 2] = 0 ∧
      compute_smplx_expression_loss (fun _ _ _ => 5) [[1]] [[2]] [0, 2]
        [[1]] = 0) := by
  refine ⟨by decide, ?_⟩
  exact empty_mask_zero_loss _ _ _ _ _ _ _ _ _ _ _ _ _ _ _ _ _ _ _ _ _
    _ _ _ _ _ _ _ _ _ _ _ _ (by decide)


/-! ## Congruence of the per-term losses in the invalid samples -/

theorem compute_keypoints3d_loss_congr
    (L3 : List (List Q3) → List (List Q3) → List (List Q3) → ℚ)
    {flags : List ℚ} {pa pb : List (List Q3)}
    {ga gb : List (List (Q3 × ℚ))}
    (hp : AgreeOn flags pa pb) (hg : AgreeOn flags ga gb) :
    compute_keypoints3d_loss L3 pa ga (some flags) =
      compute_keypoints3d_loss L3 pb gb (some flags) := by
  have hg' := maskSelect_congr flags ga gb hg
  have hp' := maskSelect_congr flags pa pb hp
  have hconf : maskSelect flags (kp3dConf ga) = maskSelect flags (kp3dConf gb) := by
    unfold kp3dConf
    rw [maskSelect_map, maskSelect_map, hg']
  have hcoords : maskSelect flags (kp3dCoords ga) = maskSelect flags (kp3dCoords gb) := by
    unfold kp3dCoords
    rw [maskSelect_map, maskSelect_map, hg']
  simp only [compute_keypoints3d_loss, maskSelectO]
  rw [hconf, hcoords, hp']

theorem compute_keypoints2d_loss_congr
    (L2 : List (List Q2) → List (List Q2) → List (List Q2) → ℚ)
    (proj : List Q3 → ℚ → Q2 → List Q2)
    {flags : List ℚ} {pa pb : List (List Q3)} {ca cb : List Q3}
    {ga gb : List (List (Q2 × ℚ))} (res fl : ℚ)
    (hp : AgreeOn flags pa pb) (hc : AgreeOn flags ca cb)
    (hg : AgreeOn flags ga gb) :
    compute_keypoints2d_loss L2 proj pa ca ga res fl (some flags) =
      compute_keypoints2d_loss L2 proj pb cb gb res fl (some flags) := by
  have hg' := maskSelect_congr flags ga gb hg
  have hconf : maskSelect flags (kp2dConf ga) = maskSelect flags (kp2dConf gb) := by
    unfold kp2dConf
    rw [maskSelect_map, maskSelect_map, hg']
  have hproj : maskSelect flags
      (List.zipWith (fun s c => proj s c.1 (c.2.1, c.2.2)) pa ca) =
      maskSelect flags
      (List.zipWith (fun s c => proj s c.1 (c.2.1, c.2.2)) pb cb) :=
    maskSelect_congr flags _ _ (hp.zipWith _ hc)
  have hnorm : maskSelect flags ((kp2dCoords ga).map (fun s => s.map (fun k =>
      (2 * k.1 / (res - 1) - 1, 2 * k.2 / (res - 1) - 1)))) =
      maskSelect flags ((kp2dCoords gb).map (fun s => s.map (fun k =>
      (2 * k.1 / (res - 1) - 1, 2 * k.2 / (res - 1) - 1)))) := by
    unfold kp2dCoords
    rw [maskSelect_map, maskSelect_map, maskSelect_map, maskSelect_map, hg']
  simp only [compute_keypoints2d_loss, maskSelectO]
  rw [hconf, hproj, hnorm]

theorem compute_smplx_body_pose_loss_congr {R : Type}
    (Lbp : List (List R) → List (List R) → ℚ) (rod : Q3 → R)
    {flags : List ℚ} {pa pb : List (List R)} {ga gb : List (List Q3)}
    {nj : ℕ} (hnj : 0 < nj)
    (hpa : numJoints pa = nj) (hpb : numJoints pb = nj)
    (hga : ∀ s ∈ ga, s.length = nj) (hgb : ∀ s ∈ gb, s.length = nj)
    (hp : AgreeOn flags pa pb) (hg : AgreeOn flags ga gb) :
    compute_smplx_body_pose_loss Lbp rod pa ga flags =
      compute_smplx_body_pose_loss Lbp rod pb gb flags := by
  have hg' := maskSelect_congr flags ga gb hg
  have hp' := maskSelect_congr flags pa pb hp
  have hrot : maskSelect flags (batch_rodrigues_view rod (numJoints pa) ga) =
      maskSelect flags (batch_rodrigues_view rod (numJoints pb) gb) := by
    rw [hpa, hpb, batch_rodrigues_view_eq_map rod hnj ga hga,
      batch_rodrigues_view_eq_map rod hnj gb hgb,
      maskSelect_map, maskSelect_map, hg']
  simp only [compute_smplx_body_pose_loss]
  rw [hg', hp', hrot]

theorem compute_smplx_global_orient_loss_congr {R : Type}
    (Lgo : List (List R) → List (List R) → ℚ) (rod : Q3 → R)
    {flags : List ℚ} {pa pb : List (List R)} {ga gb : List Q3}
    (hp : AgreeOn flags pa pb) (hg : AgreeOn flags ga gb) :
    compute_smplx_global_orient_loss Lgo rod pa ga flags =
      compute_smplx_global_orient_loss Lgo rod pb gb flags := by
  have hg' := maskSelect_congr flags ga gb hg
  have hp' := maskSelect_congr flags pa pb hp
  have hrot : maskSelect flags (batch_rodrigues_view1 rod ga) =
      maskSelect flags (batch_rodrigues_view1 rod gb) := by
    rw [batch_rodrigues_view1_eq_map, batch_rodrigues_view1_eq_map,
      maskSelect_map, maskSelect_map, hg']
  simp only [compute_smplx_global_orient_loss]
  rw [hg', hp', hrot]

theorem compute_smplx_jaw_pose_loss_congr {R : Type}
    (Ljaw : List (List R) → List (List R) → List ℚ → ℚ) (rod : Q3 → R)
    {flags : List ℚ} {pa pb : List (List R)} {ga gb : List Q3}
    {fca fcb : List (List ℚ)}
    (hp : AgreeOn flags pa pb) (hg : AgreeOn flags ga gb)
    (hfc : AgreeOn flags fca fcb) :
    compute_smplx_jaw_pose_loss Ljaw rod pa ga flags fca =
      compute_smplx_jaw_pose_loss Ljaw rod pb gb flags fcb := by
  have hg' := maskSelect_congr flags ga gb hg
  have hp' := maskSelect_congr flags pa pb hp
  have hrot : maskSelect flags (batch_rodrigues_view1 rod ga) =
      maskSelect flags (batch_rodrigues_view1 rod gb) := by
    rw [batch_rodrigues_view1_eq_map, batch_rodrigues_view1_eq_map,
      maskSelect_map, maskSelect_map, hg']
  have hconf : maskSelect flags (fca.map qmean) =
      maskSelect flags (fcb.map qmean) := by
    rw [maskSelect_map, maskSelect_map, maskSelect_congr flags _ _ hfc]
  simp only [compute_smplx_jaw_pose_loss]
  rw [hg', hp', hrot, hconf]

theorem compute_smplx_hand_pose_loss_congr {R : Type}
    (Lhand : List (List R) → List (List R) → List (List ℚ) → ℚ)
    (rod : Q3 → R)
    {flags : List ℚ} {pa pb : List (List R)} {ga gb : List (List Q3)}
    {hca hcb : List (List ℚ)} {nj : ℕ} (hnj : 0 < nj)
    (hpa : numJoints pa = nj) (hpb : numJoints pb = nj)
    (hga : ∀ s ∈ ga, s.length = nj) (hgb : ∀ s ∈ gb, s.length = nj)
    (hp : AgreeOn flags pa pb) (hg : AgreeOn flags ga gb)
    (hhc : AgreeOn flags hca hcb) :
    compute_smplx_hand_pose_loss Lhand rod pa ga flags hca =
      compute_smplx_hand_pose_loss Lhand rod pb gb flags hcb := by
  have hg' := maskSelect_congr flags ga gb hg
  have hp' := maskSelect_congr flags pa pb hp
  have hrot : maskSelect flags (batch_rodrigues_view rod (numJoints pa) ga) =
      maskSelect flags (batch_rodrigues_view rod (numJoints pb) gb) := by
    rw [hpa, hpb, batch_rodrigues_view_eq_map rod hnj ga hga,
      batch_rodrigues_view_eq_map rod hnj gb hgb,
      maskSelect_map, maskSelect_map, hg']
  have hconf : maskSelect flags
      (hca.map (fun s => List.replicate (numJoints pa) (qmean s))) =
      maskSelect flags
      (hcb.map (fun s => List.replicate (numJoints pb) (qmean s))) := by
    rw [hpa, hpb, maskSelect_map, maskSelect_map,
      maskSelect_congr flags _ _ hhc]
  simp only [compute_smplx_hand_pose_loss]
  rw [hg', hp', hrot, hconf]

theorem compute_smplx_betas_loss_congr
    (Lbetas : List (List ℚ) → List (List ℚ) → ℚ)
    {flags : List ℚ} {pa pb ga gb : List (List ℚ)}
    (hp : AgreeOn flags pa pb) (hg : AgreeOn flags ga gb) :
    compute_smplx_betas_loss Lbetas pa ga flags =
      compute_smplx_betas_loss Lbetas pb gb flags := by
  have hg' := maskSelect_congr flags ga gb hg
  have hp' := maskSelect_congr flags pa pb hp
  simp only [compute_smplx_betas_loss]
  rw [hg', hp']

theorem compute_smplx_expression_loss_congr
    (Lexpr : List (List ℚ) → List (List ℚ) → List ℚ → ℚ)
    {flags : List ℚ} {pa pb ga gb : List (List ℚ)}
    {fca fcb : List (List ℚ)}
    (hp : AgreeOn flags pa pb) (hg : AgreeOn flags ga gb)
    (hfc : AgreeOn flags fca fcb) :
    compute_smplx_expression_loss Lexpr pa ga flags fca =
      compute_smplx_expression_loss Lexpr pb gb flags fcb := by
  have hg' := maskSelect_congr flags ga gb hg
  have hp' := maskSelect_congr flags pa pb hp
  have hconf : maskSelect flags (fca.map qmean) =
      maskSelect flags (fcb.map qmean) := by
    rw [maskSelect_map, maskSelect_map, maskSelect_congr flags _ _ hfc]
  simp only [compute_smplx_expression_loss]
  rw [hg', hp', hconf]


/-- Claim C1: every flagged loss term depends only on batch samples whose
validity flag equals 1: for each per-term loss function, replacing the
predicted and ground-truth values (including the per-joint confidences
drawn from the ground-truth 2D keypoints) of every sample whose flag is
not 1 leaves the returned loss unchanged, for every underlying loss
module, rotation conversion and projection. -/
theorem losses_depend_only_on_valid_samples {R : Type}
    (L3 : List (List Q3) → List (List Q3) → List (List Q3) → ℚ)
    (L2 : List (List Q2) → List (List Q2) → List (List Q2) → ℚ)
    (proj : List Q3 → ℚ → Q2 → List Q2)
    (Lbp Lgo : List (List R) → List (List R) → ℚ)
    (Ljaw : List (List R) → List (List R) → List ℚ → ℚ)
    (Lhand : List (List R) → List (List R) → List (List ℚ) → ℚ)
    (Lbetas : List (List ℚ) → List (List ℚ) → ℚ)
    (Lexpr : List (List ℚ) → List (List ℚ) → List ℚ → ℚ)
    (rod : Q3 → R)
    (flags : List ℚ)
    (p3a p3b : List (List Q3)) (g3a g3b : List (List (Q3 × ℚ)))
    (h3p : AgreeOn flags p3a p3b) (h3g : AgreeOn flags g3a g3b)
    (p2a p2b : List (List Q3)) (cama camb : List Q3)
    (g2a g2b : List (List (Q2 × ℚ))) (res fl : ℚ)
    (h2p : AgreeOn flags p2a p2b) (h2c : AgreeOn flags cama camb)
    (h2g : AgreeOn flags g2a g2b)
    (goPa goPb : List (List R)) (goGa goGb : List Q3)
    (hgoP : AgreeOn flags goPa goPb) (hgoG : AgreeOn flags goGa goGb)
    (nj : ℕ) (hnj : 0 < nj)
    (bpPa bpPb : List (List R)) (bpGa bpGb : List (List Q3))
    (hbpPa : numJoints bpPa = nj) (hbpPb : numJoints bpPb = nj)
    (hbpGa : ∀ s ∈ bpGa, s.length = nj) (hbpGb : ∀ s ∈ bpGb, s.length = nj)
    (hbpP : AgreeOn flags bpPa bpPb) (hbpG : AgreeOn flags bpGa bpGb)
    (jPa jPb : List (List R)) (jGa jGb : List Q3) (jCa jCb : List (List ℚ))
    (hjP : AgreeOn flags jPa jPb) (hjG : AgreeOn flags jGa jGb)
    (hjC : AgreeOn flags jCa jCb)
    (nh : ℕ) (hnh : 0 < nh)
    (hPa hPb : List (List R)) (hGa hGb : List (List Q3))
    (hCa hCb : List (List ℚ))
    (hhPa : numJoints hPa = nh) (hhPb : numJoints hPb = nh)
    (hhGa : ∀ s ∈ hGa, s.length = nh) (hhGb : ∀ s ∈ hGb, s.length = nh)
    (hhP : AgreeOn flags hPa hPb) (hhG : AgreeOn flags hGa hGb)
    (hhC : AgreeOn flags hCa hCb)
    (bPa bPb bGa bGb : List (List ℚ))
    (hbP : AgreeOn flags bPa bPb) (hbG : AgreeOn flags bGa bGb)
    (ePa ePb eGa eGb : List (List ℚ)) (eCa eCb : List (List ℚ))
    (heP : AgreeOn flags ePa ePb) (heG : AgreeOn flags eGa eGb)
    (heC : AgreeOn flags eCa eCb) :
    compute_keypoints3d_loss L3 p3a g3a (some flags) =
      compute_keypoints3d_loss L3 p3b g3b (some flags) ∧
    compute_keypoints2d_loss L2 proj p2a cama g2a res fl (some flags) =
      compute_keypoints2d_loss L2 proj p2b camb g2b res fl (some flags) ∧
    compute_smplx_global_orient_loss Lgo rod goPa goGa flags =
      compute_smplx_global_orient_loss Lgo rod goPb goGb flags ∧
    compute_smplx_body_pose_loss Lbp rod bpPa bpGa flags =
      compute_smplx_body_pose_loss Lbp rod bpPb bpGb flags ∧
    compute_smplx_jaw_pose_loss Ljaw rod jPa jGa flags jCa =
      compute_smplx_jaw_pose_loss Ljaw rod jPb jGb flags jCb ∧
    compute_smplx_hand_pose_loss Lhand rod hPa hGa flags hCa =
      compute_smplx_hand_pose_loss Lhand rod hPb hGb flags hCb ∧
    compute_smplx_betas_loss Lbetas bPa bGa flags =
      compute_smplx_betas_loss Lbetas bPb bGb flags ∧
    compute_smplx_expression_loss Lexpr ePa eGa flags eCa =
      compute_smplx_expression_loss Lexpr ePb eGb flags eCb :=
  ⟨compute_keypoints3d_loss_congr L3 h3p h3g,
   compute_keypoints2d_loss_congr L2 proj res fl h2p h2c h2g,
   compute_smplx_global_orient_loss_congr Lgo rod hgoP hgoG,
   compute_smplx_body_pose_loss_congr Lbp rod hnj hbpPa hbpPb hbpGa hbpGb
     hbpP hbpG,
   compute_smplx_jaw_pose_loss_congr Ljaw rod hjP hjG hjC,
   compute_smplx_hand_pose_loss_congr Lhand rod hnh hhPa hhPb hhGa hhGb
     hhP hhG hhC,
   compute_smplx_betas_loss_congr Lbetas hbP hbG,
   compute_smplx_expression_loss_congr Lexpr heP heG heC⟩


theorem agreeOn_pair {α : Type} (u v w : α) : AgreeOn [1, 0] [u, v] [u, w] := by
  intro i hi
  match i with
  | 0 => rfl
  | 1 => exact absurd hi (by decide)
  | n + 2 => simp at hi

/-- Witness for C1 at a concrete input: batches of two samples with flags
`[1, 0]`, where the two versions differ exactly in the second (invalid)
sample; every per-term loss agrees between the two versions. -/
theorem losses_depend_only_on_valid_samples_witness :
    compute_keypoints3d_loss (fun p g w => (p.length + g.length + w.length : ℚ))
      [[(1, 1, 1)], [(2, 2, 2)]]
      [[((1, 1, 1), 1)], [((2, 2, 2), 1)]] (some [1, 0]) =
    compute_keypoints3d_loss (fun p g w => (p.length + g.length + w.length : ℚ))
      [[(1, 1, 1)], [(9, 9, 9)]]
      [[((1, 1, 1), 1)], [((7, 7, 7), 0)]] (some [1, 0]) ∧
    compute_keypoints2d_loss (fun p g w => (p.length + g.length + w.length : ℚ))
      (fun s c t => s.map (fun j => (c * j.1 + t.1, c * j.2.1 + t.2)))
      [[(1, 1, 1)], [(2, 2, 2)]] [(1, 0, 0), (1, 0, 0)]
      [[((1, 1), 1)], [((2, 2), 1)]] 224 5000 (some [1, 0]) =
    compute_keypoints2d_loss (fun p g w => (p.length + g.length + w.length : ℚ))
      (fun s c t => s.map (fun j => (c * j.1 + t.1, c * j.2.1 + t.2)))
      [[(1, 1, 1)], [(8, 8, 8)]] [(1, 0, 0), (5, 5, 5)]
      [[((1, 1), 1)], [((6, 6), 0)]] 224 5000 (some [1, 0]) ∧
    compute_smplx_global_orient_loss (fun p g => (p.length + g.length : ℚ))
      (fun v => v.1) [[(1 : ℚ)], [2]] [(1, 0, 0), (2, 0, 0)] [1, 0] =
    compute_smplx_global_orient_loss (fun p g => (p.length + g.length : ℚ))
      (fun v => v.1) [[(1 : ℚ)], [9]] [(1, 0, 0), (8, 8, 8)] [1, 0] ∧
    compute_smplx_body_pose_loss (fun p g => (p.length + g.length : ℚ))
      (fun v => v.1) [[(1 : ℚ)], [2]] [[(1, 2, 3)], [(4, 5, 6)]] [1, 0] =
    compute_smplx_body_pose_loss (fun p g => (p.length + g.length : ℚ))
      (fun v => v.1) [[(1 : ℚ)], [5]] [[(1, 2, 3)], [(7, 8, 9)]] [1, 0] ∧
    compute_smplx_jaw_pose_loss (fun p g w => (p.length + g.length + w.length : ℚ))
      (fun v => v.1) [[(1 : ℚ)], [2]] [(1, 0, 0), (2, 0, 0)] [1, 0]
      [[1], [1]] =
    compute_smplx_jaw_pose_loss (fun p g w => (p.length + g.length + w.length : ℚ))
      (fun v => v.1) [[(1 : ℚ)], [3]] [(1, 0, 0), (6, 6, 6)] [1, 0]
      [[1], [0]] ∧
    compute_smplx_hand_pose_loss (fun p g w => (p.length + g.length + w.length : ℚ))
      (fun v => v.1) [[(1 : ℚ)], [2]] [[(1, 2, 3)], [(4, 5, 6)]] [1, 0]
      [[1], [1]] =
    compute_smplx_hand_pose_loss (fun p g w => (p.length + g.length + w.length : ℚ))
      (fun v => v.1) [[(1 : ℚ)], [4]] [[(1, 2, 3)], [(6, 6, 6)]] [1, 0]
      [[1], [0]] ∧
    compute_smplx_betas_loss (fun p g => (p.length + g.length : ℚ))
      [[1], [2]] [[1], [2]] [1, 0] =
    compute_smplx_betas_loss (fun p g => (p.length + g.length : ℚ))
      [[1], [5]] [[1], [6]] [1, 0] ∧
    compute_smplx_expression_loss (fun p g w => (p.length + g.length + w.length : ℚ))
      [[1], [2]] [[1], [2]] [1, 0] [[1], [1]] =
    compute_smplx_expression_loss (fun p g w => (p.length + g.length + w.length : ℚ))
      [[1], [7]] [[1], [8]] [1, 0] [[1], [0]] := by
  refine losses_depend_only_on_valid_samples
    _ _ _ _ _ _ _ _ _ _ _ _ _ _ _ ?_ ?_ _ _ _ _ _ _ _ _ ?_ ?_ ?_
    _ _ _ _ ?_ ?_ 1 ?_ _ _ _ _ ?_ ?_ ?_ ?_ ?_ ?_
    _ _ _ _ _ _ ?_ ?_ ?_ 1 ?_ _ _ _ _ _ _ ?_ ?_ ?_ ?_ ?_ ?_ ?_
    _ _ _ _ ?_ ?_ _ _ _ _ _ _ ?_ ?_ ?_ <;>
    first
      | exact agreeOn_pair _ _ _
      | decide


/-- Claim C9: `compute_keypoints3d_loss` is invariant under constant
translation: on a batch with at least one valid sample (and the at-least-3
joints per sample that indexing joints 1 and 2 requires), adding one
constant 3D offset to all predicted keypoints and another to all
ground-truth keypoint coordinates leaves the loss unchanged, because both
sets are centered by the mean of their keypoints at indices 1 and 2
before the loss module is applied. -/
theorem kp3d_loss_translation_invariant
    (L3 : List (List Q3) → List (List Q3) → List (List Q3) → ℚ)
    (t u : Q3)
    (pred : List (List Q3)) (gt : List (List (Q3 × ℚ))) (flags : List ℚ)
    (hpred : ∀ s ∈ pred, 3 ≤ s.length)
    (hgt : ∀ s ∈ gt, 3 ≤ s.length)
    (_hvalid : ∃ i : ℕ, flags[i]? = some 1 ∧ i < gt.length) :
    compute_keypoints3d_loss L3
      (pred.map (fun s => s.map (fun j => v3add j t)))
      (gt.map (fun s => s.map (fun k => (v3add k.1 u, k.2)))) (some flags) =
    compute_keypoints3d_loss L3 pred gt (some flags) := by
  have hconf : kp3dConf (gt.map (fun s => s.map (fun k => (v3add k.1 u, k.2)))) =
      kp3dConf gt := by
    unfold kp3dConf
    rw [List.map_map]
    apply List.map_congr_left
    intro s _
    simp only [Function.comp_apply, List.map_map]
    rfl
  have hcoords : kp3dCoords (gt.map (fun s => s.map (fun k => (v3add k.1 u, k.2)))) =
      (kp3dCoords gt).map (fun s => s.map (fun j => v3add j u)) := by
    unfold kp3dCoords
    rw [List.map_map, List.map_map]
    apply List.map_congr_left
    intro s _
    simp only [Function.comp_apply, List.map_map]
    rfl
  have hcenterP : centerPelvis (maskSelect flags
      (pred.map (fun s => s.map (fun j => v3add j t)))) =
      centerPelvis (maskSelect flags pred) := by
    rw [maskSelect_map]
    unfold centerPelvis
    rw [List.map_map]
    apply List.map_congr_left
    intro s hs
    simp only [Function.comp_apply]
    exact centerSample_map_v3add t s (hpred s (maskSelect_subset hs))
  have hcenterG : centerPelvis (maskSelect flags
      (kp3dCoords (gt.map (fun s => s.map (fun k => (v3add k.1 u, k.2)))))) =
      centerPelvis (maskSelect flags (kp3dCoords gt)) := by
    rw [hcoords, maskSelect_map]
    unfold centerPelvis
    rw [List.map_map]
    apply List.map_congr_left
    intro s hs
    simp only [Function.comp_apply]
    have hs' : s ∈ kp3dCoords gt := maskSelect_subset hs
    obtain ⟨s0, hs0, rfl⟩ := List.mem_map.mp hs'
    refine centerSample_map_v3add u _ ?_
    rw [List.length_map]
    exact hgt s0 hs0
  simp only [compute_keypoints3d_loss, maskSelectO]
  rw [hconf, hcenterP, hcenterG]

/-- Witness for C9 at a concrete input: a single valid 3-joint sample,
with offsets `(1, 2, 3)` on the predictions and `(4, 5, 6)` on the
ground truth. -/
theorem kp3d_loss_translation_invariant_witness :
    compute_keypoints3d_loss
      (fun p g w => ((p.flatten.map Prod.fst).sum +
        (g.flatten.map Prod.fst).sum + (w.flatten.map Prod.fst).sum : ℚ))
      (([[(0, 0, 0), (1, 1, 1), (2, 2, 2)]] : List (List Q3)).map
        (fun s => s.map (fun j => v3add j (1, 2, 3))))
      (([[((0, 0, 0), 1), ((1, 1, 1), 1), ((2, 2, 2), 1)]] :
          List (List (Q3 × ℚ))).map
        (fun s => s.map (fun k => (v3add k.1 (4, 5, 6), k.2))))
      (some [1]) =
    compute_keypoints3d_loss
      (fun p g w => ((p.flatten.map Prod.fst).sum +
        (g.flatten.map Prod.fst).sum + (w.flatten.map Prod.fst).sum : ℚ))
      [[(0, 0, 0), (1, 1, 1), (2, 2, 2)]]
      [[((0, 0, 0), 1), ((1, 1, 1), 1), ((2, 2, 2), 1)]] (some [1]) :=
  kp3d_loss_translation_invariant _ (1, 2, 3) (4, 5, 6)
    [[(0, 0, 0), (1, 1, 1), (2, 2, 2)]]
    [[((0, 0, 0), 1), ((1, 1, 1), 1), ((2, 2, 2), 1)]] [1]
    (by decide) (by decide) ⟨0, rfl, by decide⟩


theorem compute_keypoints3d_loss_eq
    (L3 : List (List Q3) → List (List Q3) → List (List Q3) → ℚ)
    (pred : List (List Q3)) (gt : List (List (Q3 × ℚ))) (flags : List ℚ)
    (h : listNumel 3 (maskSelect flags (kp3dConf gt)) ≠ 0) :
    compute_keypoints3d_loss L3 pred gt (some flags) =
      L3 (centerPelvis (maskSelect flags pred))
        (centerPelvis (maskSelect flags (kp3dCoords gt)))
        (maskSelect flags (kp3dConf gt)) /
      ((centerPelvis (maskSelect flags (kp3dCoords gt))).length : ℚ) := by
  simp only [compute_keypoints3d_loss, maskSelectO]
  rw [if_neg h]

/-- Claim C4: each confidence-weighted loss term passes per-joint (or, for
jaw and expression, per-sample mean) confidences from the trailing
confidence channel of the ground-truth keypoint array as the loss
module's `weight`; for `compute_keypoints3d_loss` the weight at each
joint is that joint's confidence replicated over the three coordinates,
and with the spec-modelled weighted module the loss is the reduction of
the elementwise product of those weights with the per-coordinate
residuals of the pelvis-centered keypoints. -/
theorem confidence_weighting {R : Type}
    (L3 : List (List Q3) → List (List Q3) → List (List Q3) → ℚ)
    (L2 : List (List Q2) → List (List Q2) → List (List Q2) → ℚ)
    (proj : List Q3 → ℚ → Q2 → List Q2)
    (Ljaw : List (List R) → List (List R) → List ℚ → ℚ)
    (Lhand : List (List R) → List (List R) → List (List ℚ) → ℚ)
    (Lexpr : List (List ℚ) → List (List ℚ) → List ℚ → ℚ)
    (rod : Q3 → R) (phi : ℚ → ℚ → ℚ)
    (flags : List ℚ)
    (pred3 : List (List Q3)) (gt3 : List (List (Q3 × ℚ)))
    (hg3 : listNumel 3 (maskSelect flags (kp3dConf gt3)) ≠ 0)
    (p2 : List (List Q3)) (cam : List Q3) (gt2 : List (List (Q2 × ℚ)))
    (res fl : ℚ)
    (hg2 : listNumel 2 (maskSelect flags (kp2dConf gt2)) ≠ 0)
    (predjaw : List (List R)) (gtjaw : List Q3) (fconf : List (List ℚ))
    (hgj : 3 * (maskSelect flags gtjaw).length ≠ 0)
    (predhand : List (List R)) (gthand : List (List Q3))
    (hconf : List (List ℚ))
    (hgh : listNumel 3 (maskSelect flags gthand) ≠ 0)
    (predexpr gtexpr : List (List ℚ)) (fconf2 : List (List ℚ))
    (hge : listNumel 1 (maskSelect flags gtexpr) ≠ 0)
    (samples : List (List ((Q3 × Q3) × ℚ)))
    (hgs : listNumel 3 (maskSelect flags (kp3dConf
      (samples.map (fun s => s.map (fun e => (e.1.2, e.2)))))) ≠ 0) :
    compute_keypoints3d_loss L3 pred3 gt3 (some flags) =
      L3 (centerPelvis (maskSelect flags pred3))
        (centerPelvis (maskSelect flags (kp3dCoords gt3)))
        ((maskSelect flags gt3).map (fun s => s.map (fun k =>
          (k.2, k.2, k.2)))) /
      ((centerPelvis (maskSelect flags (kp3dCoords gt3))).length : ℚ) ∧
    compute_keypoints2d_loss L2 proj p2 cam gt2 res fl (some flags) =
      L2 (maskSelect flags (List.zipWith
          (fun s c => proj s c.1 (c.2.1, c.2.2)) p2 cam))
        (maskSelect flags ((kp2dCoords gt2).map (fun s => s.map (fun k =>
          (2 * k.1 / (res - 1) - 1, 2 * k.2 / (res - 1) - 1)))))
        ((maskSelect flags gt2).map (fun s => s.map (fun k =>
          (k.2, k.2)))) /
      ((maskSelect flags ((kp2dCoords gt2).map (fun s => s.map (fun k =>
        (2 * k.1 / (res - 1) - 1,
          2 * k.2 / (res - 1) - 1))))).length : ℚ) ∧
    compute_smplx_jaw_pose_loss Ljaw rod predjaw gtjaw flags fconf =
      Ljaw (maskSelect flags predjaw)
        (maskSelect flags (gtjaw.map (fun a => [rod a])))
        ((maskSelect flags fconf).map qmean) ∧
    compute_smplx_hand_pose_loss Lhand rod predhand gthand flags hconf =
      Lhand (maskSelect flags predhand)
        (maskSelect flags
          (batch_rodrigues_view rod (numJoints predhand) gthand))
        ((maskSelect flags hconf).map (fun s =>
          List.replicate (numJoints predhand) (qmean s))) ∧
    compute_smplx_expression_loss Lexpr predexpr gtexpr flags fconf2 =
      Lexpr (maskSelect flags predexpr) (maskSelect flags gtexpr)
        ((maskSelect flags fconf2).map qmean) /
      ((maskSelect flags gtexpr).length : ℚ) ∧
    compute_keypoints3d_loss (specWeightedLoss3 phi)
      (samples.map (fun s => s.map (fun e => e.1.1)))
      (samples.map (fun s => s.map (fun e => (e.1.2, e.2))))
      (some flags) =
    ((maskSelect flags samples).map (fun s =>
      (s.map (fun e =>
        e.2 * phi (v3sub e.1.1 (pelvisOf (s.map (fun d => d.1.1)))).1
                  (v3sub e.1.2 (pelvisOf (s.map (fun d => d.1.2)))).1 +
        e.2 * phi (v3sub e.1.1 (pelvisOf (s.map (fun d => d.1.1)))).2.1
                  (v3sub e.1.2 (pelvisOf (s.map (fun d => d.1.2)))).2.1 +
        e.2 * phi (v3sub e.1.1 (pelvisOf (s.map (fun d => d.1.1)))).2.2
                  (v3sub e.1.2 (pelvisOf (s.map (fun d => d.1.2)))).2.2)).sum)).sum /
      ((maskSelect flags samples).length : ℚ) := by
  have hW3 : ∀ (g : List (List (Q3 × ℚ))),
      maskSelect flags (kp3dConf g) = (maskSelect flags g).map
        (fun s => s.map (fun k => (k.2, k.2, k.2))) := by
    intro g
    unfold kp3dConf
    exact maskSelect_map _ flags g
  refine ⟨?_, ?_, ?_, ?_, ?_, ?_⟩
  · rw [compute_keypoints3d_loss_eq L3 pred3 gt3 flags hg3, hW3]
  · have hW2 : maskSelect flags (kp2dConf gt2) = (maskSelect flags gt2).map
        (fun s => s.map (fun k => (k.2, k.2))) := by
      unfold kp2dConf
      exact maskSelect_map _ flags gt2
    simp only [compute_keypoints2d_loss, maskSelectO]
    rw [if_neg hg2, hW2]
  · simp only [compute_smplx_jaw_pose_loss]
    rw [if_neg hgj, batch_rodrigues_view1_eq_map, maskSelect_map,
      maskSelect_map]
  · simp only [compute_smplx_hand_pose_loss]
    rw [if_neg hgh, maskSelect_map]
  · simp only [compute_smplx_expression_loss]
    rw [if_neg hge, maskSelect_map]
  · rw [compute_keypoints3d_loss_eq _ _ _ flags hgs]
    have hmP : centerPelvis (maskSelect flags
        (samples.map (fun s => s.map (fun e => e.1.1)))) =
        (maskSelect flags samples).map (fun s => s.map (fun e =>
          v3sub e.1.1 (pelvisOf (s.map (fun d => d.1.1))))) := by
      rw [maskSelect_map]
      unfold centerPelvis
      rw [List.map_map]
      apply List.map_congr_left
      intro s _
      simp only [Function.comp_apply]
      unfold centerSample
      rw [List.map_map]
      rfl
    have hcoordsS : kp3dCoords
        (samples.map (fun s => s.map (fun e => (e.1.2, e.2)))) =
        samples.map (fun s => s.map (fun e => e.1.2)) := by
      unfold kp3dCoords
      rw [List.map_map]
      apply List.map_congr_left
      intro s _
      simp only [Function.comp_apply]
      rw [List.map_map]
      rfl
    have hmG : centerPelvis (maskSelect flags (kp3dCoords
        (samples.map (fun s => s.map (fun e => (e.1.2, e.2)))))) =
        (maskSelect flags samples).map (fun s => s.map (fun e =>
          v3sub e.1.2 (pelvisOf (s.map (fun d => d.1.2))))) := by
      rw [hcoordsS, maskSelect_map]
      unfold centerPelvis
      rw [List.map_map]
      apply List.map_congr_left
      intro s _
      simp only [Function.comp_apply]
      unfold centerSample
      rw [List.map_map]
      rfl
    have hmW : maskSelect flags (kp3dConf
        (samples.map (fun s => s.map (fun e => (e.1.2, e.2))))) =
        (maskSelect flags samples).map (fun s => s.map (fun e =>
          (e.2, e.2, e.2))) := by
      rw [hW3, maskSelect_map, List.map_map]
      apply List.map_congr_left
      intro s _
      simp only [Function.comp_apply]
      rw [List.map_map]
      rfl
    rw [hmP, hmG, hmW,
      specWeightedLoss3_aligned phi (maskSelect flags samples)
        (fun s e => v3sub e.1.1 (pelvisOf (s.map (fun d => d.1.1))))
        (fun s e => v3sub e.1.2 (pelvisOf (s.map (fun d => d.1.2))))
        (fun _ e => (e.2, e.2, e.2))]
    rw [List.length_map]

/-- Witness for C4 at a concrete input: single-sample batches with flag
`[1]`, a squared-difference residual and length-valued loss modules. -/
theorem confidence_weighting_witness :
    compute_keypoints3d_loss ((fun p g w => (p.length + g.length + w.length : ℚ)) : List (List Q3) → List (List Q3) → List (List Q3) → ℚ) ([[(1, 1, 1), (2, 2, 2), (3, 3, 3)]] : List (List Q3)) ([[((1, 1, 1), 1), ((0, 0, 0), 1), ((2, 2, 2), 1)]] : List (List (Q3 × ℚ))) (some ([1] : List ℚ)) =
      ((fun p g w => (p.length + g.length + w.length : ℚ)) : List (List Q3) → List (List Q3) → List (List Q3) → ℚ) (centerPelvis (maskSelect ([1] : List ℚ) ([[(1, 1, 1), (2, 2, 2), (3, 3, 3)]] : List (List Q3))))
        (centerPelvis (maskSelect ([1] : List ℚ) (kp3dCoords ([[((1, 1, 1), 1), ((0, 0, 0), 1), ((2, 2, 2), 1)]] : List (List (Q3 × ℚ))))))
        ((maskSelect ([1] : List ℚ) ([[((1, 1, 1), 1), ((0, 0, 0), 1), ((2, 2, 2), 1)]] : List (List (Q3 × ℚ)))).map (fun s => s.map (fun k =>
          (k.2, k.2, k.2)))) /
      ((centerPelvis (maskSelect ([1] : List ℚ) (kp3dCoords ([[((1, 1, 1), 1), ((0, 0, 0), 1), ((2, 2, 2), 1)]] : List (List (Q3 × ℚ)))))).length : ℚ) ∧
    compute_keypoints2d_loss ((fun p g w => (p.length + g.length + w.length : ℚ)) : List (List Q2) → List (List Q2) → List (List Q2) → ℚ) ((fun s c t => s.map (fun j => (c * j.1 + t.1, c * j.2.1 + t.2))) : List Q3 → ℚ → Q2 → List Q2) ([[(1, 1, 1)]] : List (List Q3)) ([(1, 0, 0)] : List Q3) ([[((1, 1), 1)]] : List (List (Q2 × ℚ))) (224 : ℚ) (5000 : ℚ) (some ([1] : List ℚ)) =
      ((fun p g w => (p.length + g.length + w.length : ℚ)) : List (List Q2) → List (List Q2) → List (List Q2) → ℚ) (maskSelect ([1] : List ℚ) (List.zipWith
          (fun s c => ((fun s c t => s.map (fun j => (c * j.1 + t.1, c * j.2.1 + t.2))) : List Q3 → ℚ → Q2 → List Q2) s c.1 (c.2.1, c.2.2)) ([[(1, 1, 1)]] : List (List Q3)) ([(1, 0, 0)] : List Q3)))
        (maskSelect ([1] : List ℚ) ((kp2dCoords ([[((1, 1), 1)]] : List (List (Q2 × ℚ)))).map (fun s => s.map (fun k =>
          (2 * k.1 / ((224 : ℚ) - 1) - 1, 2 * k.2 / ((224 : ℚ) - 1) - 1)))))
        ((maskSelect ([1] : List ℚ) ([[((1, 1), 1)]] : List (List (Q2 × ℚ)))).map (fun s => s.map (fun k =>
          (k.2, k.2)))) /
      ((maskSelect ([1] : List ℚ) ((kp2dCoords ([[((1, 1), 1)]] : List (List (Q2 × ℚ)))).map (fun s => s.map (fun k =>
        (2 * k.1 / ((224 : ℚ) - 1) - 1,
          2 * k.2 / ((224 : ℚ) - 1) - 1))))).length : ℚ) ∧
    compute_smplx_jaw_pose_loss ((fun p g w => (p.length + g.length + w.length : ℚ)) : List (List ℚ) → List (List ℚ) → List ℚ → ℚ) ((fun v => v.1) : Q3 → ℚ) ([[(1 : ℚ)]] : List (List ℚ)) ([(1, 0, 0)] : List Q3) ([1] : List ℚ) ([[1]] : List (List ℚ)) =
      ((fun p g w => (p.length + g.length + w.length : ℚ)) : List (List ℚ) → List (List ℚ) → List ℚ → ℚ) (maskSelect ([1] : List ℚ) ([[(1 : ℚ)]] : List (List ℚ)))
        (maskSelect ([1] : List ℚ) (([(1, 0, 0)] : List Q3).map (fun a => [((fun v => v.1) : Q3 → ℚ) a])))
        ((maskSelect ([1] : List ℚ) ([[1]] : List (List ℚ))).map qmean) ∧
    compute_smplx_hand_pose_loss ((fun p g w => (p.length + g.length + w.length : ℚ)) : List (List ℚ) → List (List ℚ) → List (List ℚ) → ℚ) ((fun v => v.1) : Q3 → ℚ) ([[(1 : ℚ)]] : List (List ℚ)) ([[(1, 2, 3)]] : List (List Q3)) ([1] : List ℚ) ([[1]] : List (List ℚ)) =
      ((fun p g w => (p.length + g.length + w.length : ℚ)) : List (List ℚ) → List (List ℚ) → List (List ℚ) → ℚ) (maskSelect ([1] : List ℚ) ([[(1 : ℚ)]] : List (List ℚ)))
        (maskSelect ([1] : List ℚ)
          (batch_rodrigues_view ((fun v => v.1) : Q3 → ℚ) (numJoints ([[(1 : ℚ)]] : List (List ℚ))) ([[(1, 2, 3)]] : List (List Q3))))
        ((maskSelect ([1] : List ℚ) ([[1]] : List (List ℚ))).map (fun s =>
          List.replicate (numJoints ([[(1 : ℚ)]] : List (List ℚ))) (qmean s))) ∧
    compute_smplx_expression_loss ((fun p g w => (p.length + g.length + w.length : ℚ)) : List (List ℚ) → List (List ℚ) → List ℚ → ℚ) ([[(1 : ℚ)]] : List (List ℚ)) ([[(2 : ℚ)]] : List (List ℚ)) ([1] : List ℚ) ([[1]] : List (List ℚ)) =
      ((fun p g w => (p.length + g.length + w.length : ℚ)) : List (List ℚ) → List (List ℚ) → List ℚ → ℚ) (maskSelect ([1] : List ℚ) ([[(1 : ℚ)]] : List (List ℚ))) (maskSelect ([1] : List ℚ) ([[(2 : ℚ)]] : List (List ℚ)))
        ((maskSelect ([1] : List ℚ) ([[1]] : List (List ℚ))).map qmean) /
      ((maskSelect ([1] : List ℚ) ([[(2 : ℚ)]] : List (List ℚ))).length : ℚ) ∧
    compute_keypoints3d_loss (specWeightedLoss3 ((fun a b => (a - b) * (a - b)) : ℚ → ℚ → ℚ))
      (([[(((1, 1, 1), (0, 0, 0)), 1), (((2, 2, 2), (1, 1, 1)), 1), (((3, 3, 3), (2, 2, 2)), 1)]] : List (List ((Q3 × Q3) × ℚ))).map (fun s => s.map (fun e => e.1.1)))
      (([[(((1, 1, 1), (0, 0, 0)), 1), (((2, 2, 2), (1, 1, 1)), 1), (((3, 3, 3), (2, 2, 2)), 1)]] : List (List ((Q3 × Q3) × ℚ))).map (fun s => s.map (fun e => (e.1.2, e.2))))
      (some ([1] : List ℚ)) =
    ((maskSelect ([1] : List ℚ) ([[(((1, 1, 1), (0, 0, 0)), 1), (((2, 2, 2), (1, 1, 1)), 1), (((3, 3, 3), (2, 2, 2)), 1)]] : List (List ((Q3 × Q3) × ℚ)))).map (fun s =>
      (s.map (fun e =>
        e.2 * ((fun a b => (a - b) * (a - b)) : ℚ → ℚ → ℚ) (v3sub e.1.1 (pelvisOf (s.map (fun d => d.1.1)))).1
                  (v3sub e.1.2 (pelvisOf (s.map (fun d => d.1.2)))).1 +
        e.2 * ((fun a b => (a - b) * (a - b)) : ℚ → ℚ → ℚ) (v3sub e.1.1 (pelvisOf (s.map (fun d => d.1.1)))).2.1
                  (v3sub e.1.2 (pelvisOf (s.map (fun d => d.1.2)))).2.1 +
        e.2 * ((fun a b => (a - b) * (a - b)) : ℚ → ℚ → ℚ) (v3sub e.1.1 (pelvisOf (s.map (fun d => d.1.1)))).2.2
                  (v3sub e.1.2 (pelvisOf (s.map (fun d => d.1.2)))).2.2)).sum)).sum /
      ((maskSelect ([1] : List ℚ) ([[(((1, 1, 1), (0, 0, 0)), 1), (((2, 2, 2), (1, 1, 1)), 1), (((3, 3, 3), (2, 2, 2)), 1)]] : List (List ((Q3 × Q3) × ℚ)))).length : ℚ) :=
  confidence_weighting
    ((fun p g w => (p.length + g.length + w.length : ℚ)) : List (List Q3) → List (List Q3) → List (List Q3) → ℚ)
    ((fun p g w => (p.length + g.length + w.length : ℚ)) : List (List Q2) → List (List Q2) → List (List Q2) → ℚ)
    ((fun s c t => s.map (fun j => (c * j.1 + t.1, c * j.2.1 + t.2))) : List Q3 → ℚ → Q2 → List Q2)
    ((fun p g w => (p.length + g.length + w.length : ℚ)) : List (List ℚ) → List (List ℚ) → List ℚ → ℚ)
    ((fun p g w => (p.length + g.length + w.length : ℚ)) : List (List ℚ) → List (List ℚ) → List (List ℚ) → ℚ)
    ((fun p g w => (p.length + g.length + w.length : ℚ)) : List (List ℚ) → List (List ℚ) → List ℚ → ℚ)
    ((fun v => v.1) : Q3 → ℚ) ((fun a b => (a - b) * (a - b)) : ℚ → ℚ → ℚ) [1]
    [[(1, 1, 1), (2, 2, 2), (3, 3, 3)]]
    [[((1, 1, 1), 1), ((0, 0, 0), 1), ((2, 2, 2), 1)]] (by decide)
    [[(1, 1, 1)]] [(1, 0, 0)] [[((1, 1), 1)]] 224 5000 (by decide)
    [[(1 : ℚ)]] [(1, 0, 0)] [[1]] (by decide)
    [[(1 : ℚ)]] [[(1, 2, 3)]] [[1]] (by decide)
    [[(1 : ℚ)]] [[(2 : ℚ)]] [[1]] (by decide)
    [[(((1, 1, 1), (0, 0, 0)), 1), (((2, 2, 2), (1, 1, 1)), 1),
      (((3, 3, 3), (2, 2, 2)), 1)]] (by decide)

end MMHuman3D
